import Mathlib

/-
Verification development for the hamsfly weather aggregation engine
(apps/hamsalert/services/weather.py, apps/hamsalert/weather_poller.py,
apps/hamsalert/models.py).

Conventions of the shallow embedding:
* Python `datetime`/`date` values are modelled as `Int` timestamps (seconds)
  and `Int` day numbers; only ordering and subtraction are used by the code
  under verification.
* Python floats are modelled as `ℚ`; `random.uniform(0, base)` is modelled by
  an explicit jitter argument.
* Python `None` is `Option.none`; dataclass instances are always truthy, so a
  Python `if self.x:` test on an optional dataclass field is `Option.isSome`.
* Django querysets over `WeatherRecord` are modelled as `List WeatherRecordRow`
  with explicit filters; `order_by(-fetched_at).first()` picks a row with
  maximal `fetched_at`.
-/

/-- WeatherSource enum from weather.py: source of weather data. -/
inductive WeatherSource
  | metar
  | taf
  | nws
  | openmeteo
  | historical
  | unavailable
deriving DecidableEq, Repr

/-- WindData dataclass from weather.py (direction degrees or variable,
sustained speed in knots, optional gust, textual direction). -/
structure WindData where
  direction : Option Int
  speed : Int
  gust : Option Int
  direction_repr : String
deriving DecidableEq, Repr

/-- CloudLayer dataclass from weather.py: single cloud layer of a METAR/TAF
report (coverage code and optional altitude in feet AGL). -/
structure CloudLayer where
  coverage : String
  altitude : Option Int
deriving DecidableEq, Repr

/-- Python's round() applied to a rational: nearest integer, ties to even.
Used for the Celsius-to-Fahrenheit conversions in the record dataclasses. -/
def pyRound (q : ℚ) : Int :=
  let f := q.floor
  let r := q - (f : ℚ)
  if r < 1/2 then f
  else if 1/2 < r then f + 1
  else if f % 2 = 0 then f else f + 1

/-- Result dictionary of calculate_rc_assessment: a rating string
('good'/'marginal'/'poor'/'no-fly') and the list of triggering reasons. -/
structure Assessment where
  rating : String
  reasons : List String
deriving DecidableEq, Repr

/-- Wind-speed block of calculate_rc_assessment, as a transformer of the
(rating, reasons) state.  In the source this block runs first, on the
initial state ('good', []). -/
def windCheck (wind_speed : Int) (st : String × List String) : String × List String :=
  if wind_speed ≥ 20 then
    (("no-fly"), st.2 ++ [("Wind too strong: " ++ toString wind_speed ++ " kt")])
  else if wind_speed ≥ 15 then
    (("poor"), st.2 ++ [("High wind: " ++ toString wind_speed ++ " kt")])
  else if wind_speed ≥ 10 then
    ((if st.1 = "good" then ("marginal") else st.1),
      st.2 ++ [("Moderate wind: " ++ toString wind_speed ++ " kt")])
  else st

/-- Gust block of calculate_rc_assessment.  Python tests `if wind_gust:`,
so a gust of 0 (falsy) is treated like no gust. -/
def gustCheck (wind_speed : Int) (wind_gust : Option Int)
    (st : String × List String) : String × List String :=
  match wind_gust with
  | none => st
  | some g =>
    if g = 0 then st
    else
      let gust_factor := g - wind_speed
      if g ≥ 25 then
        (("no-fly"), st.2 ++ [("Dangerous gusts: " ++ toString g ++ " kt")])
      else if g ≥ 20 then
        ((if st.1 = "good" ∨ st.1 = "marginal" then ("poor") else st.1),
          st.2 ++ [("Strong gusts: " ++ toString g ++ " kt")])
      else if gust_factor ≥ 10 then
        ((if st.1 = "good" then ("marginal") else st.1),
          st.2 ++ [("Gusty: " ++ toString gust_factor ++ " kt spread")])
      else st

/-- Visibility block of calculate_rc_assessment (statute miles; the Python
float is modelled as ℚ, so the reason text uses the rational's printing). -/
def visibilityCheck (visibility : Option ℚ)
    (st : String × List String) : String × List String :=
  match visibility with
  | none => st
  | some v =>
    if v < 1 then
      (("no-fly"), st.2 ++ [("Very low visibility: " ++ toString v ++ " SM")])
    else if v < 3 then
      ((if st.1 = "good" ∨ st.1 = "marginal" then ("poor") else st.1),
        st.2 ++ [("Reduced visibility: " ++ toString v ++ " SM")])
    else st

/-- Ceiling block of calculate_rc_assessment (feet AGL). -/
def ceilingCheck (ceiling : Option Int)
    (st : String × List String) : String × List String :=
  match ceiling with
  | none => st
  | some c =>
    if c < 400 then
      ((if st.1 = "good" ∨ st.1 = "marginal" then ("poor") else st.1),
        st.2 ++ [("Very low ceiling: " ++ toString c ++ " ft")])
    else if c < 1000 then
      ((if st.1 = "good" then ("marginal") else st.1),
        st.2 ++ [("Low ceiling: " ++ toString c ++ " ft")])
    else st

/-- Precipitation-probability block of calculate_rc_assessment. -/
def precipCheck (precipitation_probability : Option Int)
    (st : String × List String) : String × List String :=
  match precipitation_probability with
  | none => st
  | some p =>
    if p ≥ 25 then
      ((if st.1 = "good" ∨ st.1 = "marginal" then ("poor") else st.1),
        st.2 ++ [("High rain chance: " ++ toString p ++ "%")])
    else if p ≥ 10 then
      ((if st.1 = "good" then ("marginal") else st.1),
        st.2 ++ [("Rain possible: " ++ toString p ++ "%")])
    else st

/-- calculate_rc_assessment from weather.py: runs the five threshold blocks
in source order on the initial state ('good', []). -/
def calculate_rc_assessment (wind_speed : Int) (wind_gust : Option Int)
    (visibility : Option ℚ) (ceiling : Option Int)
    (precipitation_probability : Option Int) : Assessment :=
  let st0 : String × List String := (("good"), [])
  let st1 := windCheck wind_speed st0
  let st2 := gustCheck wind_speed wind_gust st1
  let st3 := visibilityCheck visibility st2
  let st4 := ceilingCheck ceiling st3
  let st5 := precipCheck precipitation_probability st4
  ⟨st5.1, st5.2⟩

/-- Severity index of a rating string: good 0, marginal 1, poor 2, no-fly 3. -/
def ratingVal (r : String) : Nat :=
  if r = "no-fly" then 3
  else if r = "poor" then 2
  else if r = "marginal" then 1
  else 0

/-- Rating string of a severity index (inverse of ratingVal on 0..3). -/
def ratingOfVal (v : Nat) : String :=
  if v ≥ 3 then ("no-fly")
  else if v = 2 then ("poor")
  else if v = 1 then ("marginal")
  else ("good")

/-- Modelled from the spec: severity bucket that the wind-speed input alone
triggers (thresholds as in the wind block of calculate_rc_assessment). -/
def specWindBucket (wind_speed : Int) : Nat :=
  if wind_speed ≥ 20 then 3 else if wind_speed ≥ 15 then 2
  else if wind_speed ≥ 10 then 1 else 0

/-- Modelled from the spec: severity bucket triggered by the gust input
(the spread threshold also reads the sustained speed). -/
def specGustBucket (wind_speed : Int) (wind_gust : Option Int) : Nat :=
  match wind_gust with
  | none => 0
  | some g =>
    if g = 0 then 0
    else if g ≥ 25 then 3 else if g ≥ 20 then 2
    else if g - wind_speed ≥ 10 then 1 else 0

/-- Modelled from the spec: severity bucket triggered by visibility. -/
def specVisibilityBucket (visibility : Option ℚ) : Nat :=
  match visibility with
  | none => 0
  | some v => if v < 1 then 3 else if v < 3 then 2 else 0

/-- Modelled from the spec: severity bucket triggered by ceiling. -/
def specCeilingBucket (ceiling : Option Int) : Nat :=
  match ceiling with
  | none => 0
  | some c => if c < 400 then 2 else if c < 1000 then 1 else 0

/-- Modelled from the spec: severity bucket triggered by precipitation
probability. -/
def specPrecipBucket (precipitation_probability : Option Int) : Nat :=
  match precipitation_probability with
  | none => 0
  | some p => if p ≥ 25 then 2 else if p ≥ 10 then 1 else 0

/-- Reasons contributed by the wind-speed block alone. -/
def specWindReasons (wind_speed : Int) : List String :=
  if wind_speed ≥ 20 then [("Wind too strong: " ++ toString wind_speed ++ " kt")]
  else if wind_speed ≥ 15 then [("High wind: " ++ toString wind_speed ++ " kt")]
  else if wind_speed ≥ 10 then [("Moderate wind: " ++ toString wind_speed ++ " kt")]
  else []

/-- Reasons contributed by the gust block alone. -/
def specGustReasons (wind_speed : Int) (wind_gust : Option Int) : List String :=
  match wind_gust with
  | none => []
  | some g =>
    if g = 0 then []
    else if g ≥ 25 then [("Dangerous gusts: " ++ toString g ++ " kt")]
    else if g ≥ 20 then [("Strong gusts: " ++ toString g ++ " kt")]
    else if g - wind_speed ≥ 10 then
      [("Gusty: " ++ toString (g - wind_speed) ++ " kt spread")]
    else []

/-- Reasons contributed by the visibility block alone. -/
def specVisibilityReasons (visibility : Option ℚ) : List String :=
  match visibility with
  | none => []
  | some v =>
    if v < 1 then [("Very low visibility: " ++ toString v ++ " SM")]
    else if v < 3 then [("Reduced visibility: " ++ toString v ++ " SM")]
    else []

/-- Reasons contributed by the ceiling block alone. -/
def specCeilingReasons (ceiling : Option Int) : List String :=
  match ceiling with
  | none => []
  | some c =>
    if c < 400 then [("Very low ceiling: " ++ toString c ++ " ft")]
    else if c < 1000 then [("Low ceiling: " ++ toString c ++ " ft")]
    else []

/-- Reasons contributed by the precipitation block alone. -/
def specPrecipReasons (precipitation_probability : Option Int) : List String :=
  match precipitation_probability with
  | none => []
  | some p =>
    if p ≥ 25 then [("High rain chance: " ++ toString p ++ "%")]
    else if p ≥ 10 then [("Rain possible: " ++ toString p ++ "%")]
    else []

/-- A rating string produced by the assessment pipeline. -/
def validRating (r : String) : Prop :=
  r = "good" ∨ r = "marginal" ∨ r = "poor" ∨ r = "no-fly"

theorem validRating_ratingOfVal (v : Nat) : validRating (ratingOfVal v) := by
  unfold validRating ratingOfVal
  split_ifs <;> simp

theorem ratingOfVal_ratingVal {r : String} (h : validRating r) :
    ratingOfVal (ratingVal r) = r := by
  rcases h with h | h | h | h <;> subst h <;> rfl

theorem ratingVal_good : ratingVal ("good") = 0 := rfl

theorem ratingVal_marginal : ratingVal ("marginal") = 1 := rfl

theorem ratingVal_poor : ratingVal ("poor") = 2 := rfl

theorem ratingVal_nofly : ratingVal ("no-fly") = 3 := rfl

theorem ratingVal_ratingOfVal {v : Nat} (h : v ≤ 3) :
    ratingVal (ratingOfVal v) = v := by
  unfold ratingOfVal
  split_ifs with h1 h2 h3 <;>
    simp [ratingVal_good, ratingVal_marginal, ratingVal_poor, ratingVal_nofly] <;>
    omega


theorem specWindBucket_le (ws : Int) : specWindBucket ws ≤ 3 := by
  unfold specWindBucket
  split_ifs <;> omega

theorem specGustBucket_le (ws : Int) (g : Option Int) : specGustBucket ws g ≤ 3 := by
  cases g with
  | none => simp [specGustBucket]
  | some gv =>
    simp only [specGustBucket]
    split_ifs <;> omega

theorem specVisibilityBucket_le (v : Option ℚ) : specVisibilityBucket v ≤ 3 := by
  cases v with
  | none => simp [specVisibilityBucket]
  | some vv =>
    simp only [specVisibilityBucket]
    split_ifs <;> omega

theorem specCeilingBucket_le (c : Option Int) : specCeilingBucket c ≤ 3 := by
  cases c with
  | none => simp [specCeilingBucket]
  | some cv =>
    simp only [specCeilingBucket]
    split_ifs <;> omega

theorem specPrecipBucket_le (p : Option Int) : specPrecipBucket p ≤ 3 := by
  cases p with
  | none => simp [specPrecipBucket]
  | some pv =>
    simp only [specPrecipBucket]
    split_ifs <;> omega

theorem windCheck_run (ws : Int) :
    windCheck ws (("good"), []) = (ratingOfVal (specWindBucket ws), specWindReasons ws) := by
  unfold windCheck specWindBucket specWindReasons
  split_ifs <;> first | rfl | omega | (simp; rfl) | simp_all

theorem gustCheck_run (ws : Int) (g : Option Int) (st : String × List String)
    (h : validRating st.1) :
    gustCheck ws g st
      = (ratingOfVal (max (ratingVal st.1) (specGustBucket ws g)),
         st.2 ++ specGustReasons ws g) := by
  obtain ⟨r, l⟩ := st
  cases g with
  | none =>
    rcases h with h | h | h | h <;> subst h <;>
      simp [gustCheck, specGustBucket, specGustReasons, ratingVal, ratingOfVal]
  | some gv =>
    rcases h with h | h | h | h <;> subst h <;>
      simp only [gustCheck, specGustBucket, specGustReasons,
        ratingVal_good, ratingVal_marginal, ratingVal_poor, ratingVal_nofly] <;>
      split_ifs <;> (first | rfl | omega | (simp; rfl) | simp_all)

theorem visibilityCheck_run (vis : Option ℚ) (st : String × List String)
    (h : validRating st.1) :
    visibilityCheck vis st
      = (ratingOfVal (max (ratingVal st.1) (specVisibilityBucket vis)),
         st.2 ++ specVisibilityReasons vis) := by
  obtain ⟨r, l⟩ := st
  cases vis with
  | none =>
    rcases h with h | h | h | h <;> subst h <;>
      simp [visibilityCheck, specVisibilityBucket, specVisibilityReasons, ratingVal, ratingOfVal]
  | some vv =>
    rcases h with h | h | h | h <;> subst h <;>
      simp only [visibilityCheck, specVisibilityBucket, specVisibilityReasons,
        ratingVal_good, ratingVal_marginal, ratingVal_poor, ratingVal_nofly] <;>
      split_ifs <;> (first | rfl | linarith | (simp; rfl) | simp_all)

theorem ceilingCheck_run (ceil : Option Int) (st : String × List String)
    (h : validRating st.1) :
    ceilingCheck ceil st
      = (ratingOfVal (max (ratingVal st.1) (specCeilingBucket ceil)),
         st.2 ++ specCeilingReasons ceil) := by
  obtain ⟨r, l⟩ := st
  cases ceil with
  | none =>
    rcases h with h | h | h | h <;> subst h <;>
      simp [ceilingCheck, specCeilingBucket, specCeilingReasons, ratingVal, ratingOfVal]
  | some cv =>
    rcases h with h | h | h | h <;> subst h <;>
      simp only [ceilingCheck, specCeilingBucket, specCeilingReasons,
        ratingVal_good, ratingVal_marginal, ratingVal_poor, ratingVal_nofly] <;>
      split_ifs <;> (first | rfl | omega | (simp; rfl) | simp_all)

theorem precipCheck_run (pp : Option Int) (st : String × List String)
    (h : validRating st.1) :
    precipCheck pp st
      = (ratingOfVal (max (ratingVal st.1) (specPrecipBucket pp)),
         st.2 ++ specPrecipReasons pp) := by
  obtain ⟨r, l⟩ := st
  cases pp with
  | none =>
    rcases h with h | h | h | h <;> subst h <;>
      simp [precipCheck, specPrecipBucket, specPrecipReasons, ratingVal, ratingOfVal]
  | some pv =>
    rcases h with h | h | h | h <;> subst h <;>
      simp only [precipCheck, specPrecipBucket, specPrecipReasons,
        ratingVal_good, ratingVal_marginal, ratingVal_poor, ratingVal_nofly] <;>
      split_ifs <;> (first | rfl | omega | (simp; rfl) | simp_all)

/-- C6: calculate_rc_assessment is a deterministic pure function of wind
speed, gust, visibility, ceiling, and precipitation probability; each input
is independently thresholded into a severity bucket, the returned rating is
the worst bucket triggered by any input, the triggering reasons are retained
in the fixed source order (wind, gust, visibility, ceiling, precipitation);
and wind 22 kt with gust 30 kt yields 'no-fly' with a reason citing
dangerous gusts. -/
theorem rc_assessment_worst_bucket :
    (∀ (ws : Int) (g : Option Int) (vis : Option ℚ) (ceil : Option Int) (pp : Option Int),
      calculate_rc_assessment ws g vis ceil pp
        = ⟨ratingOfVal (max (max (max (max (specWindBucket ws) (specGustBucket ws g))
              (specVisibilityBucket vis)) (specCeilingBucket ceil)) (specPrecipBucket pp)),
           specWindReasons ws ++ specGustReasons ws g ++ specVisibilityReasons vis
             ++ specCeilingReasons ceil ++ specPrecipReasons pp⟩)
    ∧ calculate_rc_assessment 22 (some 30) none none none
        = ⟨("no-fly"), [("Wind too strong: 22 kt"), ("Dangerous gusts: 30 kt")]⟩
    ∧ ("Dangerous gusts: 30 kt") ∈ (calculate_rc_assessment 22 (some 30) none none none).reasons := by
  refine ⟨fun ws g vis ceil pp => ?_, by decide, by decide⟩
  simp only [calculate_rc_assessment]
  rw [windCheck_run,
    gustCheck_run ws g _ (validRating_ratingOfVal _),
    ratingVal_ratingOfVal (specWindBucket_le ws),
    visibilityCheck_run vis _ (validRating_ratingOfVal _),
    ratingVal_ratingOfVal (max_le (specWindBucket_le ws) (specGustBucket_le ws g)),
    ceilingCheck_run ceil _ (validRating_ratingOfVal _),
    ratingVal_ratingOfVal (max_le (max_le (specWindBucket_le ws) (specGustBucket_le ws g))
      (specVisibilityBucket_le vis)),
    precipCheck_run pp _ (validRating_ratingOfVal _),
    ratingVal_ratingOfVal (max_le (max_le (max_le (specWindBucket_le ws)
      (specGustBucket_le ws g)) (specVisibilityBucket_le vis)) (specCeilingBucket_le ceil))]

/-- Ceiling computation shared by WeatherData and TafForecastPeriod: the
altitude of the first BKN/OVC/VV layer (Python returns that layer's altitude
even when it is None). -/
def ceilingOfClouds (clouds : List CloudLayer) : Option Int :=
  match clouds.find? (fun l => l.coverage == "BKN" || l.coverage == "OVC" || l.coverage == "VV") with
  | some layer => layer.altitude
  | none => none

/-- WeatherData dataclass from weather.py (parsed METAR).  The datetime
fields (observation_time, cached_at) and display-only fields are omitted;
they are not read by any merge, assessment, or caching logic. -/
structure WeatherData where
  station : String
  raw_metar : String
  wind : WindData
  visibility : ℚ
  clouds : List CloudLayer
  temperature : Option Int
  dewpoint : Option Int
  flight_rules : String
  from_cache : Bool
deriving DecidableEq, Repr

/-- WeatherData.ceiling property: first BKN/OVC/VV layer altitude. -/
def WeatherData.ceiling (w : WeatherData) : Option Int :=
  ceilingOfClouds w.clouds

/-- WeatherData.temperature_f property: Celsius to Fahrenheit, Python round. -/
def WeatherData.temperature_f (w : WeatherData) : Option Int :=
  match w.temperature with
  | none => none
  | some c => some (pyRound ((c : ℚ) * 9 / 5 + 32))

/-- TafForecastPeriod dataclass (timestamps omitted as unread). -/
structure TafForecastPeriod where
  wind : WindData
  visibility : ℚ
  clouds : List CloudLayer
  flight_rules : String
deriving DecidableEq, Repr

/-- TafForecastPeriod.ceiling property. -/
def TafForecastPeriod.ceiling (p : TafForecastPeriod) : Option Int :=
  ceilingOfClouds p.clouds

/-- TafForecastData dataclass from weather.py (issue_time and cached_at
omitted as unread by the verified logic). -/
structure TafForecastData where
  station : String
  raw_taf : String
  target_date : Int
  period : TafForecastPeriod
  wind : WindData
  visibility : ℚ
  clouds : List CloudLayer
  flight_rules : String
  from_cache : Bool
deriving DecidableEq, Repr

/-- TafForecastData.ceiling property: delegates to the applicable period. -/
def TafForecastData.ceiling (t : TafForecastData) : Option Int :=
  t.period.ceiling

/-- NwsForecastData dataclass from weather.py (the periods list and
cached_at are omitted as unread by the merge and assessment logic). -/
structure NwsForecastData where
  location : ℚ × ℚ
  target_date : Int
  wind : WindData
  temperature_high : Option Int
  temperature_low : Option Int
  short_forecast : String
  precipitation_probability : Option Int
  from_cache : Bool
deriving DecidableEq, Repr

/-- OpenMeteoForecastData dataclass from weather.py (temperatures in
Celsius; cached_at omitted). -/
structure OpenMeteoForecastData where
  location : ℚ × ℚ
  target_date : Int
  wind : WindData
  temperature_high : Option Int
  temperature_low : Option Int
  precipitation_probability : Option Int
  from_cache : Bool
deriving DecidableEq, Repr

/-- OpenMeteoForecastData.temperature_high_f property. -/
def OpenMeteoForecastData.temperature_high_f (o : OpenMeteoForecastData) : Option Int :=
  match o.temperature_high with
  | none => none
  | some c => some (pyRound ((c : ℚ) * 9 / 5 + 32))

/-- OpenMeteoForecastData.temperature_low_f property. -/
def OpenMeteoForecastData.temperature_low_f (o : OpenMeteoForecastData) : Option Int :=
  match o.temperature_low with
  | none => none
  | some c => some (pyRound ((c : ℚ) * 9 / 5 + 32))

/-- HistoricalWeatherData dataclass from weather.py (cached_at omitted). -/
structure HistoricalWeatherData where
  location : ℚ × ℚ
  target_date : Int
  wind : WindData
  temperature_high : Option Int
  temperature_low : Option Int
  precipitation_sum : Option ℚ
  from_cache : Bool
deriving DecidableEq, Repr

/-- HistoricalWeatherData.temperature_high_f property. -/
def HistoricalWeatherData.temperature_high_f (h : HistoricalWeatherData) : Option Int :=
  match h.temperature_high with
  | none => none
  | some c => some (pyRound ((c : ℚ) * 9 / 5 + 32))

/-- HistoricalWeatherData.temperature_low_f property. -/
def HistoricalWeatherData.temperature_low_f (h : HistoricalWeatherData) : Option Int :=
  match h.temperature_low with
  | none => none
  | some c => some (pyRound ((c : ℚ) * 9 / 5 + 32))

/-- Helper mirroring Python's early-return guard chains over optional
values: take the first operand when it is non-None, otherwise the second. -/
def orChain {α : Type} : Option α → Option α → Option α
  | some v, _ => some v
  | none, b => b

/-- CompositeWeatherData dataclass from weather.py: combined weather data
from all applicable sources for a date (cached_at and the compatibility
`source` field omitted as unread by the verified properties). -/
structure CompositeWeatherData where
  target_date : Int
  metar : Option WeatherData
  taf : Option TafForecastData
  nws : Option NwsForecastData
  openmeteo : Option OpenMeteoForecastData
  historical : Option HistoricalWeatherData
deriving DecidableEq, Repr

/-- CompositeWeatherData.sources: list of available sources. -/
def CompositeWeatherData.sources (c : CompositeWeatherData) : List WeatherSource :=
  (if c.metar.isSome then [WeatherSource.metar] else [])
    ++ (if c.taf.isSome then [WeatherSource.taf] else [])
    ++ (if c.nws.isSome then [WeatherSource.nws] else [])
    ++ (if c.openmeteo.isSome then [WeatherSource.openmeteo] else [])
    ++ (if c.historical.isSome then [WeatherSource.historical] else [])

/-- CompositeWeatherData.wind: best available wind
(METAR > TAF > NWS > OpenMeteo > Historical); each guard tests only
presence of the record, since wind is a required dataclass field. -/
def CompositeWeatherData.wind (c : CompositeWeatherData) : Option WindData :=
  orChain (c.metar.map WeatherData.wind)
    (orChain (c.taf.map TafForecastData.wind)
      (orChain (c.nws.map NwsForecastData.wind)
        (orChain (c.openmeteo.map OpenMeteoForecastData.wind)
          (c.historical.map HistoricalWeatherData.wind))))

/-- CompositeWeatherData.wind_source: source of wind data. -/
def CompositeWeatherData.wind_source (c : CompositeWeatherData) : Option WeatherSource :=
  orChain (c.metar.map fun _ => WeatherSource.metar)
    (orChain (c.taf.map fun _ => WeatherSource.taf)
      (orChain (c.nws.map fun _ => WeatherSource.nws)
        (orChain (c.openmeteo.map fun _ => WeatherSource.openmeteo)
          (c.historical.map fun _ => WeatherSource.historical))))

/-- CompositeWeatherData.temperature_f: best available temperature in
Fahrenheit (METAR > NWS > OpenMeteo > Historical); each guard also
requires the record's temperature to be non-None. -/
def CompositeWeatherData.temperature_f (c : CompositeWeatherData) : Option Int :=
  orChain (c.metar.bind WeatherData.temperature_f)
    (orChain (c.nws.bind NwsForecastData.temperature_high)
      (orChain (c.openmeteo.bind OpenMeteoForecastData.temperature_high_f)
        (c.historical.bind HistoricalWeatherData.temperature_high_f)))

/-- CompositeWeatherData.temperature_source: source of temperature data. -/
def CompositeWeatherData.temperature_source (c : CompositeWeatherData) : Option WeatherSource :=
  orChain ((c.metar.bind WeatherData.temperature_f).map fun _ => WeatherSource.metar)
    (orChain ((c.nws.bind NwsForecastData.temperature_high).map fun _ => WeatherSource.nws)
      (orChain ((c.openmeteo.bind OpenMeteoForecastData.temperature_high_f).map
          fun _ => WeatherSource.openmeteo)
        ((c.historical.bind HistoricalWeatherData.temperature_high_f).map
          fun _ => WeatherSource.historical)))

/-- CompositeWeatherData.ceiling: `if self.metar: return self.metar.ceiling;
if self.taf: return self.taf.ceiling; return None` — the guards test only
record presence, so a present METAR with an absent ceiling yields None
without falling through to the TAF. -/
def CompositeWeatherData.ceiling (c : CompositeWeatherData) : Option Int :=
  match c.metar with
  | some m => m.ceiling
  | none =>
    match c.taf with
    | some t => t.ceiling
    | none => none

/-- CompositeWeatherData.ceiling_source: unlike the ceiling value, the
source attribution requires a non-None ceiling before attributing. -/
def CompositeWeatherData.ceiling_source (c : CompositeWeatherData) : Option WeatherSource :=
  orChain ((c.metar.bind WeatherData.ceiling).map fun _ => WeatherSource.metar)
    ((c.taf.bind TafForecastData.ceiling).map fun _ => WeatherSource.taf)

/-- CompositeWeatherData.visibility: best available visibility
(METAR > TAF); visibility is a required field of both records. -/
def CompositeWeatherData.visibility (c : CompositeWeatherData) : Option ℚ :=
  orChain (c.metar.map WeatherData.visibility) (c.taf.map TafForecastData.visibility)

/-- CompositeWeatherData.visibility_source: source of visibility data. -/
def CompositeWeatherData.visibility_source (c : CompositeWeatherData) : Option WeatherSource :=
  orChain (c.metar.map fun _ => WeatherSource.metar)
    (c.taf.map fun _ => WeatherSource.taf)

/-- CompositeWeatherData.precipitation_probability (NWS > OpenMeteo),
requiring a non-None value at each step. -/
def CompositeWeatherData.precipitation_probability (c : CompositeWeatherData) : Option Int :=
  orChain (c.nws.bind NwsForecastData.precipitation_probability)
    (c.openmeteo.bind OpenMeteoForecastData.precipitation_probability)

/-- CompositeWeatherData.precip_source: source of precipitation probability. -/
def CompositeWeatherData.precip_source (c : CompositeWeatherData) : Option WeatherSource :=
  orChain ((c.nws.bind NwsForecastData.precipitation_probability).map fun _ => WeatherSource.nws)
    ((c.openmeteo.bind OpenMeteoForecastData.precipitation_probability).map
      fun _ => WeatherSource.openmeteo)

/-- CompositeWeatherData.rc_flying_assessment: 'good' with a no-data reason
when no wind is available, otherwise calculate_rc_assessment on the merged
fields. -/
def CompositeWeatherData.rc_flying_assessment (c : CompositeWeatherData) : Assessment :=
  match c.wind with
  | none => ⟨("good"), [("No wind data available")]⟩
  | some w =>
    calculate_rc_assessment w.speed w.gust c.visibility c.ceiling
      c.precipitation_probability

/-- CompositeWeatherData.from_cache: true if any present source was served
from cache. -/
def CompositeWeatherData.from_cache (c : CompositeWeatherData) : Bool :=
  (match c.metar with | some m => m.from_cache | none => false)
    || (match c.taf with | some t => t.from_cache | none => false)
    || (match c.nws with | some n => n.from_cache | none => false)
    || (match c.openmeteo with | some o => o.from_cache | none => false)
    || (match c.historical with | some h => h.from_cache | none => false)

/-- CompositeWeatherData.source_label: joined labels of present sources, or
'Unavailable' when none contribute. -/
def CompositeWeatherData.source_label (c : CompositeWeatherData) : String :=
  let labels :=
    (if c.metar.isSome then [("METAR")] else [])
      ++ (if c.taf.isSome then [("TAF")] else [])
      ++ (if c.nws.isSome then [("NWS")] else [])
      ++ (if c.openmeteo.isSome then [("Extended")] else [])
      ++ (if c.historical.isSome then [("Historical")] else [])
  if labels = [] then ("Unavailable") else String.intercalate (" + ") labels

/-- Modelled from the spec: walk a priority-ordered candidate list and take
the value of the first provider with a non-absent value for the field. -/
def specFieldValue {α : Type} (cands : List (WeatherSource × Option α)) : Option α :=
  match cands.find? (fun p => p.2.isSome) with
  | some p => p.2
  | none => none

/-- Modelled from the spec: the winning provider for a field is the first
provider in priority order with a non-absent value. -/
def specFieldWinner {α : Type} (cands : List (WeatherSource × Option α)) : Option WeatherSource :=
  (cands.find? (fun p => p.2.isSome)).map Prod.fst

/-- Wind candidates in the spec's fixed priority order
(current-observation > short-range > medium-range > extended-range > historical). -/
def specWindCands (c : CompositeWeatherData) : List (WeatherSource × Option WindData) :=
  [(WeatherSource.metar, c.metar.map WeatherData.wind),
   (WeatherSource.taf, c.taf.map TafForecastData.wind),
   (WeatherSource.nws, c.nws.map NwsForecastData.wind),
   (WeatherSource.openmeteo, c.openmeteo.map OpenMeteoForecastData.wind),
   (WeatherSource.historical, c.historical.map HistoricalWeatherData.wind)]

/-- Temperature candidates in the spec's fixed priority order
(current-observation > medium-range > extended-range > historical). -/
def specTempCands (c : CompositeWeatherData) : List (WeatherSource × Option Int) :=
  [(WeatherSource.metar, c.metar.bind WeatherData.temperature_f),
   (WeatherSource.nws, c.nws.bind NwsForecastData.temperature_high),
   (WeatherSource.openmeteo, c.openmeteo.bind OpenMeteoForecastData.temperature_high_f),
   (WeatherSource.historical, c.historical.bind HistoricalWeatherData.temperature_high_f)]

/-- Ceiling candidates (current-observation > short-range). -/
def specCeilingCands (c : CompositeWeatherData) : List (WeatherSource × Option Int) :=
  [(WeatherSource.metar, c.metar.bind WeatherData.ceiling),
   (WeatherSource.taf, c.taf.bind TafForecastData.ceiling)]

/-- Visibility candidates (current-observation > short-range). -/
def specVisCands (c : CompositeWeatherData) : List (WeatherSource × Option ℚ) :=
  [(WeatherSource.metar, c.metar.map WeatherData.visibility),
   (WeatherSource.taf, c.taf.map TafForecastData.visibility)]

/-- Precipitation-probability candidates (medium-range > extended-range). -/
def specPrecipCands (c : CompositeWeatherData) : List (WeatherSource × Option Int) :=
  [(WeatherSource.nws, c.nws.bind NwsForecastData.precipitation_probability),
   (WeatherSource.openmeteo, c.openmeteo.bind OpenMeteoForecastData.precipitation_probability)]

theorem orChain_none_right {α : Type} (a : Option α) : orChain a none = a := by
  cases a <;> rfl

theorem map_const_map {α β γ : Type} (x : Option α) (f : α → β) (s : γ) :
    ((x.map f).map fun _ => s) = x.map fun _ => s := by
  cases x <;> rfl

theorem map_const_comp {α β γ : Type} (x : Option α) (f : α → β) (s : γ) :
    (x.map ((fun _ => s) ∘ f)) = x.map fun _ => s := by
  cases x <;> rfl

theorem specFieldValue_cons {α : Type} (s : WeatherSource) (v : Option α)
    (rest : List (WeatherSource × Option α)) :
    specFieldValue ((s, v) :: rest) = orChain v (specFieldValue rest) := by
  cases v <;> simp [specFieldValue, orChain, List.find?]

theorem specFieldValue_nil {α : Type} : specFieldValue ([] : List (WeatherSource × Option α)) = none := rfl

theorem specFieldWinner_cons {α : Type} (s : WeatherSource) (v : Option α)
    (rest : List (WeatherSource × Option α)) :
    specFieldWinner ((s, v) :: rest)
      = orChain (v.map fun _ => s) (specFieldWinner rest) := by
  cases v <;> simp [specFieldWinner, orChain, List.find?]

theorem specFieldWinner_nil {α : Type} : specFieldWinner ([] : List (WeatherSource × Option α)) = none := rfl

/-- METAR record of the C1 counterexample: clear skies, so its own ceiling
is absent. -/
def c1CexMetar : WeatherData :=
  ⟨("KACV"), ("KACV 011200Z 27005KT 10SM CLR 15/10 A3001"),
   ⟨some 270, 5, none, ("270")⟩, 10, [], some 15, some 10, ("VFR"), false⟩

/-- TAF record of the C1 counterexample: a broken layer at 500 ft, so its
ceiling is 500. -/
def c1CexTaf : TafForecastData :=
  ⟨("KACV"), ("TAF KACV 011130Z"), 0,
   ⟨⟨some 270, 8, none, ("270")⟩, 6, [⟨("BKN"), some 500⟩], ("MVFR")⟩,
   ⟨some 270, 8, none, ("270")⟩, 6, [⟨("BKN"), some 500⟩], ("MVFR"), false⟩

/-- Composite of the C1 counterexample: both METAR and TAF contribute. -/
def c1Cex : CompositeWeatherData :=
  ⟨0, some c1CexMetar, some c1CexTaf, none, none, none⟩

/-- C1 counterexample: with a present METAR whose ceiling is absent and a
TAF reporting a 500 ft ceiling, the composite ceiling is None — it does not
fall through to the short-range (TAF) value 500 demanded by the claim. -/
theorem composite_merge_ceiling_cex :
    c1Cex.ceiling = none
    ∧ specFieldValue (specCeilingCands c1Cex) = some 500
    ∧ c1Cex.ceiling ≠ specFieldValue (specCeilingCands c1Cex) := by
  refine ⟨rfl, rfl, ?_⟩
  decide

/-- C1 (amended): every composite field value and its winning-provider
attribution follow the spec's fixed priority order with fall-through on
absent values — except the composite ceiling value, which does not fall
through past a present current-observation record: when METAR is present
the composite ceiling is METAR's (possibly absent) ceiling, while the
ceiling source attribution still falls through to the first contributor
with a non-absent ceiling. -/
theorem composite_merge_priority (c : CompositeWeatherData) :
    c.wind = specFieldValue (specWindCands c)
    ∧ c.wind_source = specFieldWinner (specWindCands c)
    ∧ c.temperature_f = specFieldValue (specTempCands c)
    ∧ c.temperature_source = specFieldWinner (specTempCands c)
    ∧ c.visibility = specFieldValue (specVisCands c)
    ∧ c.visibility_source = specFieldWinner (specVisCands c)
    ∧ c.precipitation_probability = specFieldValue (specPrecipCands c)
    ∧ c.precip_source = specFieldWinner (specPrecipCands c)
    ∧ c.ceiling_source = specFieldWinner (specCeilingCands c)
    ∧ c.ceiling = (match c.metar with
        | some m => m.ceiling
        | none => specFieldValue (specCeilingCands c)) := by
  refine ⟨?_, ?_, ?_, ?_, ?_, ?_, ?_, ?_, ?_, ?_⟩ <;>
    simp only [CompositeWeatherData.wind, CompositeWeatherData.wind_source,
      CompositeWeatherData.temperature_f, CompositeWeatherData.temperature_source,
      CompositeWeatherData.visibility, CompositeWeatherData.visibility_source,
      CompositeWeatherData.precipitation_probability, CompositeWeatherData.precip_source,
      CompositeWeatherData.ceiling_source, CompositeWeatherData.ceiling,
      specWindCands, specTempCands, specCeilingCands, specVisCands, specPrecipCands,
      specFieldValue_cons, specFieldValue_nil, specFieldWinner_cons, specFieldWinner_nil,
      orChain_none_right, map_const_map, map_const_comp] <;>
    first
    | rfl
    | (cases c.metar with
       | some m => rfl
       | none =>
         cases c.taf with
         | some t => simp [orChain]
         | none => simp [orChain])

/-- C10: a composite with zero contributing sources reports rating 'good'
with the single reason 'No wind data available', source label 'Unavailable',
and from_cache false. -/
theorem composite_no_sources_defaults (d : Int) :
    (CompositeWeatherData.mk d none none none none none).rc_flying_assessment
        = ⟨("good"), [("No wind data available")]⟩
    ∧ (CompositeWeatherData.mk d none none none none none).source_label = ("Unavailable")
    ∧ (CompositeWeatherData.mk d none none none none none).from_cache = false := by
  refine ⟨rfl, rfl, rfl⟩

/-- WeatherRecord model row from models.py: persistent storage for weather
data keyed by type, target date, and station or coordinates.  `data` is the
stored JSON payload, modelled abstractly as a string. -/
structure WeatherRecordRow where
  weather_type : String
  target_date : Int
  latitude : Option ℚ
  longitude : Option ℚ
  station : String
  data : String
  fetched_at : Int
  api_response_time_ms : Option Int
deriving DecidableEq, Repr

/-- Python's int() applied to a rational: truncation toward zero.  Used for
the rate-limit thresholds `int(ceiling * safety_margin)`. -/
def pyInt (q : ℚ) : Int :=
  if 0 ≤ q then q.floor else q.ceil

/-- The weather_type values counted against the shared Open-Meteo quota in
_check_rate_limit. -/
def openmeteoTypes : List String := [("openmeteo"), ("hourly"), ("historical")]

/-- Count of shared-quota records fetched within the trailing window of
`window` seconds: `fetched_at >= now - window` (the timedelta filter of
_check_rate_limit). -/
def countRecentOpenMeteo (db : List WeatherRecordRow) (now window : Int) : Nat :=
  (db.filter (fun r =>
    openmeteoTypes.contains r.weather_type && decide (now - window ≤ r.fetched_at))).length

/-- WeatherService._check_rate_limit: returns true when under all three
scaled ceilings, false as soon as one window's count is at or over its
threshold `int(ceiling * margin)`.  Windows are one minute, one hour and
one day. -/
def checkRateLimit (db : List WeatherRecordRow) (now : Int)
    (perMinute perHour perDay : Int) (margin : ℚ) : Bool :=
  let minute_count := countRecentOpenMeteo db now 60
  let minute_threshold := pyInt ((perMinute : ℚ) * margin)
  if (minute_count : Int) ≥ minute_threshold then false
  else
    let hour_count := countRecentOpenMeteo db now 3600
    let hour_threshold := pyInt ((perHour : ℚ) * margin)
    if (hour_count : Int) ≥ hour_threshold then false
    else
      let day_count := countRecentOpenMeteo db now 86400
      let day_threshold := pyInt ((perDay : ℚ) * margin)
      if (day_count : Int) ≥ day_threshold then false
      else true

/-- A shared-quota record fetched at time 0, used for the C4 boundary
evaluations. -/
def omRow : WeatherRecordRow :=
  ⟨("openmeteo"), 0, some (409781/10000), some (-1241086/10000), (""), ("{}"), 0, none⟩

theorem countRecentOpenMeteo_replicate (n : Nat) (now window : Int)
    (h : now - window ≤ 0) :
    countRecentOpenMeteo (List.replicate n omRow) now window = n := by
  unfold countRecentOpenMeteo
  rw [List.filter_replicate]
  simp [omRow, openmeteoTypes, h]

/-- C4: with the default configuration (600/minute, 5000/hour, 10000/day,
margin 0.9, hence scaled ceilings 540/4500/9000), _check_rate_limit returns
false iff at least one trailing window's count of persisted shared-quota
records is at or over its scaled ceiling; in particular 539 shared-quota
records inside the minute window allow the call and 540 refuse it. -/
theorem check_rate_limit_windows :
    (∀ (db : List WeatherRecordRow) (now : Int),
      (checkRateLimit db now 600 5000 10000 (9/10) = false
        ↔ (540 ≤ countRecentOpenMeteo db now 60
            ∨ 4500 ≤ countRecentOpenMeteo db now 3600
            ∨ 9000 ≤ countRecentOpenMeteo db now 86400)))
    ∧ checkRateLimit (List.replicate 539 omRow) 0 600 5000 10000 (9/10) = true
    ∧ checkRateLimit (List.replicate 540 omRow) 0 600 5000 10000 (9/10) = false := by
  refine ⟨fun db now => ?_, ?_, ?_⟩
  · have h60 : pyInt (((600 : Int) : ℚ) * (9/10)) = 540 := by
      have e : (((600 : Int):ℚ) * (9/10)) = 540 := by norm_num
      unfold pyInt
      rw [e, if_pos (by norm_num)]
      decide
    have h3600 : pyInt (((5000 : Int) : ℚ) * (9/10)) = 4500 := by
      have e : (((5000 : Int):ℚ) * (9/10)) = 4500 := by norm_num
      unfold pyInt
      rw [e, if_pos (by norm_num)]
      decide
    have h86400 : pyInt (((10000 : Int) : ℚ) * (9/10)) = 9000 := by
      have e : (((10000 : Int):ℚ) * (9/10)) = 9000 := by norm_num
      unfold pyInt
      rw [e, if_pos (by norm_num)]
      decide
    simp only [checkRateLimit, h60, h3600, h86400]
    split_ifs <;> simp <;> omega
  · have h1 : countRecentOpenMeteo (List.replicate 539 omRow) 0 60 = 539 :=
      countRecentOpenMeteo_replicate 539 0 60 (by omega)
    have h2 : countRecentOpenMeteo (List.replicate 539 omRow) 0 3600 = 539 :=
      countRecentOpenMeteo_replicate 539 0 3600 (by omega)
    have h3 : countRecentOpenMeteo (List.replicate 539 omRow) 0 86400 = 539 :=
      countRecentOpenMeteo_replicate 539 0 86400 (by omega)
    simp only [checkRateLimit, h1, h2, h3]
    norm_num
    decide
  · have h1 : countRecentOpenMeteo (List.replicate 540 omRow) 0 60 = 540 :=
      countRecentOpenMeteo_replicate 540 0 60 (by omega)
    simp only [checkRateLimit, h1]
    norm_num
    decide

/-- Error taxonomy of weather.py: RateLimitError is a subclass of
WeatherServiceError, so an `except WeatherServiceError` catches both; the
two constructors model the two classes. -/
inductive WSError
  | weatherServiceError (msg : String)
  | rateLimitError (msg : String)
deriving DecidableEq, Repr

/-- True exactly for the RateLimitError class. -/
def WSError.isRateLimit : WSError → Bool
  | .rateLimitError _ => true
  | .weatherServiceError _ => false

/-- Outcome of one HTTP attempt inside _make_request_with_retry: a response
with a status code (and parsed Retry-After value for 429s; an unparsable
header is modelled as none, which the source also maps to the backoff
path), a timeout, or a transport error. -/
inductive AttemptOutcome
  | httpResponse (status : Nat) (retryAfter : Option ℚ)
  | timeout
  | transportError
deriving DecidableEq, Repr

/-- WeatherService._calculate_backoff_delay: exponential backoff
`base * 2^attempt` plus the sampled uniform(0, base) jitter, capped at
max_delay. -/
def calculateBackoffDelay (base_delay max_delay : ℚ) (attempt : Nat) (jitter : ℚ) : ℚ :=
  min (base_delay * 2 ^ attempt + jitter) max_delay

/-- Delay chosen for a retried 429: the parsed Retry-After capped at
max_delay if present, otherwise the exponential backoff. -/
def retryDelay (base_delay max_delay : ℚ) (attempt : Nat) (jitter : ℚ)
    (retryAfter : Option ℚ) : ℚ :=
  match retryAfter with
  | some ra => min ra max_delay
  | none => calculateBackoffDelay base_delay max_delay attempt jitter

/-- Retry loop of _make_request_with_retry, from a given attempt index: on
429 with retries left, sleep the retry delay and continue; on the last
attempt's 429, raise the generic WeatherServiceError; any other status is
returned to the caller; timeouts and transport errors are retried with the
backoff delay and raise generic WeatherServiceErrors on exhaustion.
Returns the result together with the list of sleeps performed. -/
def requestLoop (maxRetries : Nat) (base_delay max_delay : ℚ)
    (outcomes : Nat → AttemptOutcome) (jitters : Nat → ℚ)
    (attempt : Nat) : Except WSError Nat × List ℚ :=
  match outcomes attempt with
  | .httpResponse 429 ra =>
    if h : attempt < maxRetries then
      let d := retryDelay base_delay max_delay attempt (jitters attempt) ra
      let rest := requestLoop maxRetries base_delay max_delay outcomes jitters (attempt + 1)
      (rest.1, d :: rest.2)
    else (.error (.weatherServiceError ("API rate limit exceeded after retries")), [])
  | .httpResponse s _ => (.ok s, [])
  | .timeout =>
    if h : attempt < maxRetries then
      let d := calculateBackoffDelay base_delay max_delay attempt (jitters attempt)
      let rest := requestLoop maxRetries base_delay max_delay outcomes jitters (attempt + 1)
      (rest.1, d :: rest.2)
    else (.error (.weatherServiceError ("API request timed out after retries")), [])
  | .transportError =>
    if h : attempt < maxRetries then
      let d := calculateBackoffDelay base_delay max_delay attempt (jitters attempt)
      let rest := requestLoop maxRetries base_delay max_delay outcomes jitters (attempt + 1)
      (rest.1, d :: rest.2)
    else (.error (.weatherServiceError ("API request failed after retries")), [])
termination_by maxRetries - attempt
decreasing_by all_goals omega

/-- WeatherService._make_request_with_retry: for Open-Meteo URLs a failed
proactive rate-limit check raises RateLimitError before any attempt;
otherwise the retry loop runs from attempt 0. -/
def makeRequestWithRetry (isOpenMeteo : Bool) (rateLimitOk : Bool)
    (maxRetries : Nat) (base_delay max_delay : ℚ)
    (outcomes : Nat → AttemptOutcome) (jitters : Nat → ℚ) :
    Except WSError Nat × List ℚ :=
  if isOpenMeteo && !rateLimitOk then
    (.error (.rateLimitError ("Open-Meteo rate limit threshold reached")), [])
  else requestLoop maxRetries base_delay max_delay outcomes jitters 0

/-- An outcome is retryable when it is a 429 response, a timeout, or a
transport error. -/
def retryable : AttemptOutcome → Bool
  | .httpResponse 429 _ => true
  | .httpResponse _ _ => false
  | .timeout => true
  | .transportError => true

/-- Error message raised when retries are exhausted on the given outcome. -/
def exhaustionMessage : AttemptOutcome → String
  | .httpResponse _ _ => ("API rate limit exceeded after retries")
  | .timeout => ("API request timed out after retries")
  | .transportError => ("API request failed after retries")

theorem retryable_http_true {s : Nat} {ra : Option ℚ}
    (h : retryable (.httpResponse s ra) = true) : s = 429 := by
  by_contra hne
  unfold retryable at h
  split at h
  · next heq => injection heq with h1 h2; exact hne h1
  · exact Bool.false_ne_true h
  · simp_all
  · simp_all

theorem requestLoop_const_retryable (maxRetries : Nat) (base_delay max_delay : ℚ)
    (o : AttemptOutcome) (jitters : Nat → ℚ) (attempt : Nat)
    (ho : retryable o = true) (hle : attempt ≤ maxRetries) :
    (requestLoop maxRetries base_delay max_delay (fun _ => o) jitters attempt).1
        = .error (.weatherServiceError (exhaustionMessage o))
    ∧ (requestLoop maxRetries base_delay max_delay (fun _ => o) jitters attempt).2.length
        = maxRetries - attempt := by
  suffices hsuf : ∀ (n a : Nat), a ≤ maxRetries → maxRetries - a = n →
      (requestLoop maxRetries base_delay max_delay (fun _ => o) jitters a).1
          = .error (.weatherServiceError (exhaustionMessage o))
      ∧ (requestLoop maxRetries base_delay max_delay (fun _ => o) jitters a).2.length
          = maxRetries - a by
    exact hsuf (maxRetries - attempt) attempt hle rfl
  intro n
  induction n with
  | zero =>
    intro attempt hle2 hn
    have ha : attempt = maxRetries := by omega
    subst ha
    cases o with
    | httpResponse s ra =>
      have hs := retryable_http_true ho
      subst hs
      rw [requestLoop]
      simp [exhaustionMessage]
    | timeout =>
      rw [requestLoop]
      simp [exhaustionMessage]
    | transportError =>
      rw [requestLoop]
      simp [exhaustionMessage]
  | succ k ih =>
    intro attempt hle2 hn
    have hlt : attempt < maxRetries := by omega
    have hrec := ih (attempt + 1) (by omega) (by omega)
    cases o with
    | httpResponse s ra =>
      have hs := retryable_http_true ho
      subst hs
      rw [requestLoop]
      simp only [dif_pos hlt]
      refine ⟨hrec.1, ?_⟩
      simp only [List.length_cons, hrec.2]
      omega
    | timeout =>
      rw [requestLoop]
      simp only [dif_pos hlt]
      refine ⟨hrec.1, ?_⟩
      simp only [List.length_cons, hrec.2]
      omega
    | transportError =>
      rw [requestLoop]
      simp only [dif_pos hlt]
      refine ⟨hrec.1, ?_⟩
      simp only [List.length_cons, hrec.2]
      omega

theorem requestLoop_sleeps_le (maxRetries : Nat) (base_delay max_delay : ℚ)
    (outcomes : Nat → AttemptOutcome) (jitters : Nat → ℚ) (attempt : Nat) :
    (requestLoop maxRetries base_delay max_delay outcomes jitters attempt).2.length
      ≤ maxRetries - attempt := by
  suffices hsuf : ∀ (n a : Nat), maxRetries - a = n →
      (requestLoop maxRetries base_delay max_delay outcomes jitters a).2.length
        ≤ maxRetries - a by
    exact hsuf (maxRetries - attempt) attempt rfl
  intro n
  induction n with
  | zero =>
    intro a hn
    rw [requestLoop]
    split
    · split
      · next h => exact absurd h (by omega)
      · simp
    · simp
    · split
      · next h => exact absurd h (by omega)
      · simp
    · split
      · next h => exact absurd h (by omega)
      · simp
  | succ k ih =>
    intro a hn
    rw [requestLoop]
    split
    · split
      · next h =>
        have hrec := ih (a + 1) (by omega)
        simp only [List.length_cons]
        omega
      · simp
    · simp
    · split
      · next h =>
        have hrec := ih (a + 1) (by omega)
        simp only [List.length_cons]
        omega
      · simp
    · split
      · next h =>
        have hrec := ih (a + 1) (by omega)
        simp only [List.length_cons]
        omega
      · simp

/-- C5: the Retry Executor's wait on a retried 429 equals the
server-provided Retry-After capped at max_delay when present and the
exponential backoff `base * 2^attempt + jitter` capped at max_delay
otherwise; every wait is at most max_delay; for a fixed jitter sample the
backoff is non-decreasing from each attempt to the next (hence so is its
expectation over the identically-distributed jitter); at the default ceiling
of 3 retries at most 3 sleeps happen; and 429s, timeouts, and transport
errors are all retried until exhaustion after exactly 3 sleeps (4 total
attempts). -/
theorem retry_backoff_policy :
    (∀ (base_delay max_delay : ℚ) (attempt : Nat) (jitter ra : ℚ),
        retryDelay base_delay max_delay attempt jitter (some ra) = min ra max_delay
      ∧ retryDelay base_delay max_delay attempt jitter none
          = min (base_delay * 2 ^ attempt + jitter) max_delay
      ∧ (∀ roption : Option ℚ, retryDelay base_delay max_delay attempt jitter roption ≤ max_delay)
      ∧ (0 ≤ base_delay →
          calculateBackoffDelay base_delay max_delay attempt jitter
            ≤ calculateBackoffDelay base_delay max_delay (attempt + 1) jitter))
    ∧ (∀ (base_delay max_delay : ℚ) (outcomes : Nat → AttemptOutcome) (jitters : Nat → ℚ),
        (requestLoop 3 base_delay max_delay outcomes jitters 0).2.length ≤ 3)
    ∧ (∀ (base_delay max_delay : ℚ) (jitters : Nat → ℚ) (o : AttemptOutcome),
        retryable o = true →
          (requestLoop 3 base_delay max_delay (fun _ => o) jitters 0).1
              = .error (.weatherServiceError (exhaustionMessage o))
          ∧ (requestLoop 3 base_delay max_delay (fun _ => o) jitters 0).2.length = 3) := by
  refine ⟨fun base_delay max_delay attempt jitter ra => ⟨rfl, rfl, ?_, ?_⟩, ?_, ?_⟩
  · intro roption
    cases roption <;> simp [retryDelay, calculateBackoffDelay]
  · intro hb
    unfold calculateBackoffDelay
    refine min_le_min (add_le_add_right ?_ jitter) le_rfl
    have h2 : (2:ℚ) ^ attempt ≤ 2 ^ (attempt + 1) := by
      refine pow_le_pow_right₀ ?_ (Nat.le_succ attempt)
      norm_num
    exact mul_le_mul_of_nonneg_left h2 hb
  · intro base_delay max_delay outcomes jitters
    simpa using requestLoop_sleeps_le 3 base_delay max_delay outcomes jitters 0
  · intro base_delay max_delay jitters o ho
    have h := requestLoop_const_retryable 3 base_delay max_delay o jitters 0 ho (by omega)
    exact ⟨h.1, h.2⟩

/-- Witness for C5: concrete instantiation discharging the nonnegative-base
hypothesis of the monotonicity clause and the retryability hypothesis of
the exhaustion clause. -/
theorem retry_backoff_policy_witness :
    ((0:ℚ) ≤ 1
      ∧ calculateBackoffDelay 1 30 0 (1/2) ≤ calculateBackoffDelay 1 30 1 (1/2))
    ∧ (retryable AttemptOutcome.timeout = true
      ∧ (requestLoop 3 1 30 (fun _ => AttemptOutcome.timeout) (fun _ => 0) 0).1
          = .error (.weatherServiceError ("API request timed out after retries"))) := by
  refine ⟨⟨by norm_num, ?_⟩, rfl, ?_⟩
  · exact (retry_backoff_policy.1 1 30 0 (1/2) 0).2.2.2 (by norm_num)
  · exact (retry_backoff_policy.2.2 1 30 (fun _ => 0) AttemptOutcome.timeout rfl).1

/-- True when a fetch result carries a RateLimitError. -/
def resultIsRateLimitError (r : Except WSError Nat × List ℚ) : Bool :=
  match r.1 with
  | .error e => e.isRateLimit
  | .ok _ => false

/-- C7 counterexample: exhausting retries on repeated 429s raises the
generic WeatherServiceError ("API rate limit exceeded after retries"), not
the RateLimitError class the claim asserts. -/
theorem retry_429_exhaustion_class_cex :
    (makeRequestWithRetry false true 3 1 30
        (fun _ => AttemptOutcome.httpResponse 429 none) (fun _ => 0)).1
      = .error (.weatherServiceError ("API rate limit exceeded after retries"))
    ∧ resultIsRateLimitError (makeRequestWithRetry false true 3 1 30
        (fun _ => AttemptOutcome.httpResponse 429 none) (fun _ => 0)) = false := by
  have h := (requestLoop_const_retryable 3 1 30 (AttemptOutcome.httpResponse 429 none)
    (fun _ => 0) 0 rfl (by omega)).1
  have hm : (makeRequestWithRetry false true 3 1 30
      (fun _ => AttemptOutcome.httpResponse 429 none) (fun _ => 0)).1
      = (requestLoop 3 1 30 (fun _ => AttemptOutcome.httpResponse 429 none) (fun _ => 0) 0).1 := by
    simp [makeRequestWithRetry]
  refine ⟨hm.trans h, ?_⟩
  unfold resultIsRateLimitError
  rw [hm, h]
  rfl

/-- C7 (amended): exhausting retries on repeated 429s raises the generic
WeatherServiceError class with message "API rate limit exceeded after
retries" — the same class as the timeout and transport exhaustion errors,
distinguishable from them only by message — while the RateLimitError class
is raised only by the rate limiter's proactive refusal before any attempt. -/
theorem retry_error_taxonomy (maxRetries : Nat) (base_delay max_delay : ℚ)
    (jitters : Nat → ℚ) :
    ((requestLoop maxRetries base_delay max_delay
        (fun _ => AttemptOutcome.httpResponse 429 none) jitters 0).1
      = .error (.weatherServiceError ("API rate limit exceeded after retries")))
    ∧ ((requestLoop maxRetries base_delay max_delay
        (fun _ => AttemptOutcome.timeout) jitters 0).1
      = .error (.weatherServiceError ("API request timed out after retries")))
    ∧ ((requestLoop maxRetries base_delay max_delay
        (fun _ => AttemptOutcome.transportError) jitters 0).1
      = .error (.weatherServiceError ("API request failed after retries")))
    ∧ (∀ (outcomes : Nat → AttemptOutcome),
        makeRequestWithRetry true false maxRetries base_delay max_delay outcomes jitters
          = (.error (.rateLimitError ("Open-Meteo rate limit threshold reached")), []))
    ∧ WSError.isRateLimit (.weatherServiceError ("API rate limit exceeded after retries")) = false
    ∧ WSError.isRateLimit (.rateLimitError ("Open-Meteo rate limit threshold reached")) = true
    ∧ ("API rate limit exceeded after retries") ≠ ("API request timed out after retries")
    ∧ ("API rate limit exceeded after retries") ≠ ("API request failed after retries") := by
  refine ⟨?_, ?_, ?_, ?_, rfl, rfl, by decide, by decide⟩
  · exact (requestLoop_const_retryable maxRetries base_delay max_delay
      (AttemptOutcome.httpResponse 429 none) jitters 0 rfl (Nat.zero_le _)).1
  · exact (requestLoop_const_retryable maxRetries base_delay max_delay
      AttemptOutcome.timeout jitters 0 rfl (Nat.zero_le _)).1
  · exact (requestLoop_const_retryable maxRetries base_delay max_delay
      AttemptOutcome.transportError jitters 0 rfl (Nat.zero_le _)).1
  · intro outcomes
    simp [makeRequestWithRetry]

/-- Location filter of _get_from_db: when a (truthy) station is given the
query filters on the station; otherwise, when both coordinates are given,
it filters on the ±0.0001° ranges; otherwise no location filter. -/
def locationFilter (station : Option String) (lat lon : Option ℚ)
    (q : List WeatherRecordRow) : List WeatherRecordRow :=
  match station with
  | some s =>
    if s = "" then
      match lat, lon with
      | some la, some lo =>
        q.filter (fun r =>
          match r.latitude, r.longitude with
          | some rla, some rlo =>
            decide (la - 1/10000 ≤ rla) && decide (rla ≤ la + 1/10000)
              && decide (lo - 1/10000 ≤ rlo) && decide (rlo ≤ lo + 1/10000)
          | _, _ => false)
      | _, _ => q
    else q.filter (fun r => r.station == s)
  | none =>
    match lat, lon with
    | some la, some lo =>
      q.filter (fun r =>
        match r.latitude, r.longitude with
        | some rla, some rlo =>
          decide (la - 1/10000 ≤ rla) && decide (rla ≤ la + 1/10000)
            && decide (lo - 1/10000 ≤ rlo) && decide (rlo ≤ lo + 1/10000)
        | _, _ => false)
    | _, _ => q

/-- Fold step of `order_by(-fetched_at).first()`: keep the row with the
strictly larger fetched_at, preferring the earlier row among equals (a
deterministic choice for the database's unspecified tie order). -/
def mostRecentStep (acc : Option WeatherRecordRow) (r : WeatherRecordRow) :
    Option WeatherRecordRow :=
  match acc with
  | none => some r
  | some a => if r.fetched_at > a.fetched_at then some r else acc

/-- `order_by(-fetched_at).first()`: a row of maximal fetched_at. -/
def mostRecent (q : List WeatherRecordRow) : Option WeatherRecordRow :=
  q.foldl mostRecentStep none

/-- WeatherService._get_from_db: filter by type and target date, apply the
location filter, apply the max-age cutoff `fetched_at >= now - max_age`
only when max_age_seconds is not None, and return the most recent row. -/
def getFromDb (db : List WeatherRecordRow) (weather_type : String) (target_date : Int)
    (station : Option String) (lat lon : Option ℚ)
    (max_age_seconds : Option Int) (now : Int) : Option WeatherRecordRow :=
  let q1 := db.filter (fun r =>
    r.weather_type == weather_type && r.target_date == target_date)
  let q2 := locationFilter station lat lon q1
  let q3 :=
    match max_age_seconds with
    | some age => q2.filter (fun r => decide (now - age ≤ r.fetched_at))
    | none => q2
  mostRecent q3

theorem mostRecentStep_foldl_mem :
    ∀ (l : List WeatherRecordRow) (acc : Option WeatherRecordRow) (x : WeatherRecordRow),
      l.foldl mostRecentStep acc = some x → x ∈ l ∨ acc = some x := by
  intro l
  induction l with
  | nil =>
    intro acc x h
    right
    simpa using h
  | cons hd tl ih =>
    intro acc x h
    simp only [List.foldl_cons] at h
    rcases ih (mostRecentStep acc hd) x h with hmem | hacc
    · exact Or.inl (List.mem_cons_of_mem hd hmem)
    · cases acc with
      | none =>
        left
        simp only [mostRecentStep] at hacc
        injection hacc with h1
        subst h1
        exact List.mem_cons_self hd tl
      | some a =>
        simp only [mostRecentStep] at hacc
        split at hacc
        · left
          injection hacc with h1
          subst h1
          exact List.mem_cons_self hd tl
        · exact Or.inr hacc

theorem mostRecentStep_foldl_max :
    ∀ (l : List WeatherRecordRow) (acc : Option WeatherRecordRow) (x : WeatherRecordRow),
      l.foldl mostRecentStep acc = some x →
      (∀ y ∈ l, y.fetched_at ≤ x.fetched_at)
        ∧ (∀ a, acc = some a → a.fetched_at ≤ x.fetched_at) := by
  intro l
  induction l with
  | nil =>
    intro acc x h
    simp only [List.foldl_nil] at h
    subst h
    exact ⟨by simp, fun a ha => by injection ha with h1; subst h1; exact le_refl _⟩
  | cons hd tl ih =>
    intro acc x h
    simp only [List.foldl_cons] at h
    have hih := ih (mostRecentStep acc hd) x h
    have hstep : ∀ b, mostRecentStep acc hd = some b → b.fetched_at ≤ x.fetched_at :=
      hih.2
    have hhd : hd.fetched_at ≤ x.fetched_at := by
      cases acc with
      | none => exact hstep hd rfl
      | some a =>
        simp only [mostRecentStep] at hstep
        by_cases hgt : hd.fetched_at > a.fetched_at
        · exact hstep hd (by rw [if_pos hgt])
        · have ha := hstep a (by rw [if_neg hgt])
          omega
    refine ⟨?_, ?_⟩
    · intro y hy
      rcases List.mem_cons.mp hy with h1 | h1
      · subst h1; exact hhd
      · exact hih.1 y h1
    · intro a ha
      subst ha
      simp only [mostRecentStep] at hstep
      by_cases hgt : hd.fetched_at > a.fetched_at
      · have := hstep hd (by rw [if_pos hgt])
        omega
      · exact hstep a (by rw [if_neg hgt])

theorem mostRecent_mem (q : List WeatherRecordRow) (r : WeatherRecordRow)
    (h : mostRecent q = some r) : r ∈ q := by
  rcases mostRecentStep_foldl_mem q none r h with hm | hm
  · exact hm
  · cases hm

theorem mostRecent_max (q : List WeatherRecordRow) (r : WeatherRecordRow)
    (h : mostRecent q = some r) : ∀ y ∈ q, y.fetched_at ≤ r.fetched_at :=
  (mostRecentStep_foldl_max q none r h).1

/-- Upsert key of a persisted row: the unique-constraint tuple
(weather_type, target_date, station, latitude, longitude) of
models.WeatherRecord. -/
def rowKey (r : WeatherRecordRow) : String × Int × String × Option ℚ × Option ℚ :=
  (r.weather_type, r.target_date, r.station, r.latitude, r.longitude)

/-- Lookup predicate of _save_to_db: full key match, with None coordinates
matching only NULL columns (Django translates both the explicit
isnull filters of the manual branch and `latitude=None` lookups to IS NULL). -/
def saveKeyMatch (weather_type : String) (target_date : Int) (stationVal : String)
    (lat lon : Option ℚ) (r : WeatherRecordRow) : Bool :=
  decide (r.weather_type = weather_type) && decide (r.target_date = target_date)
    && decide (r.station = stationVal) && decide (r.latitude = lat)
    && decide (r.longitude = lon)

/-- The `defaults` applied on update: data, fetched_at := now, and the
response time; the key columns are untouched. -/
def applySaveDefaults (data : String) (now : Int) (respMs : Option Int)
    (r : WeatherRecordRow) : WeatherRecordRow :=
  ⟨r.weather_type, r.target_date, r.latitude, r.longitude, r.station, data, now, respMs⟩

/-- Update the first row satisfying `p` in place. -/
def replaceFirst (p : WeatherRecordRow → Bool) (f : WeatherRecordRow → WeatherRecordRow) :
    List WeatherRecordRow → List WeatherRecordRow
  | [] => []
  | r :: rest => if p r then f r :: rest else r :: replaceFirst p f rest

/-- Row created by _save_to_db from the lookup key and defaults. -/
def newSaveRow (weather_type : String) (target_date : Int) (stationVal : String)
    (lat lon : Option ℚ) (data : String) (now : Int) (respMs : Option Int) :
    WeatherRecordRow :=
  ⟨weather_type, target_date, lat, lon, stationVal, data, now, respMs⟩

/-- WeatherService._save_to_db body before exception handling: normalizes a
missing station to '', and upserts on the full key.  The NULL-coordinate
case updates the first match found (mirroring `.first()`); the coordinate
case mirrors `update_or_create`, which raises when the key lookup matches
more than one row.  `backendFails` models an arbitrary database failure. -/
def saveToDbCore (db : List WeatherRecordRow) (weather_type : String) (target_date : Int)
    (data : String) (station : Option String) (lat lon : Option ℚ)
    (now : Int) (respMs : Option Int) (backendFails : Bool) :
    Except String (List WeatherRecordRow) :=
  if backendFails then .error ("database error")
  else
    match lat, lon with
    | none, none =>
      match db.find? (saveKeyMatch weather_type target_date (station.getD ("")) none none) with
      | some _ =>
        .ok (replaceFirst (saveKeyMatch weather_type target_date (station.getD ("")) none none)
          (applySaveDefaults data now respMs) db)
      | none =>
        .ok (db ++ [newSaveRow weather_type target_date (station.getD ("")) none none data now respMs])
    | la, lo =>
      match db.filter (saveKeyMatch weather_type target_date (station.getD ("")) la lo) with
      | [] => .ok (db ++ [newSaveRow weather_type target_date (station.getD ("")) la lo data now respMs])
      | [_] =>
        .ok (replaceFirst (saveKeyMatch weather_type target_date (station.getD ("")) la lo)
          (applySaveDefaults data now respMs) db)
      | _ => .error ("get() returned more than one WeatherRecord")

/-- WeatherService._save_to_db: the whole body runs in a try/except that
logs and swallows every exception, so the caller always gets back a
database state — the previous one when anything failed. -/
def saveToDb (db : List WeatherRecordRow) (weather_type : String) (target_date : Int)
    (data : String) (station : Option String) (lat lon : Option ℚ)
    (now : Int) (respMs : Option Int) (backendFails : Bool) : List WeatherRecordRow :=
  match saveToDbCore db weather_type target_date data station lat lon now respMs backendFails with
  | .ok db2 => db2
  | .error _ => db

/-- The at-most-one-current-row-per-key invariant. -/
def uniqueKeys (db : List WeatherRecordRow) : Prop :=
  List.Pairwise (fun a b => rowKey a ≠ rowKey b) db

theorem saveKeyMatch_iff (weather_type : String) (target_date : Int) (stationVal : String)
    (lat lon : Option ℚ) (r : WeatherRecordRow) :
    saveKeyMatch weather_type target_date stationVal lat lon r = true
      ↔ rowKey r = (weather_type, target_date, stationVal, lat, lon) := by
  simp [saveKeyMatch, rowKey, Prod.ext_iff, and_assoc]

theorem rowKey_applySaveDefaults (data : String) (now : Int) (respMs : Option Int)
    (r : WeatherRecordRow) :
    rowKey (applySaveDefaults data now respMs r) = rowKey r := rfl

theorem rowKey_newSaveRow (weather_type : String) (target_date : Int) (stationVal : String)
    (lat lon : Option ℚ) (data : String) (now : Int) (respMs : Option Int) :
    rowKey (newSaveRow weather_type target_date stationVal lat lon data now respMs)
      = (weather_type, target_date, stationVal, lat, lon) := rfl

theorem mem_replaceFirst_key (p : WeatherRecordRow → Bool)
    (f : WeatherRecordRow → WeatherRecordRow)
    (hf : ∀ r, rowKey (f r) = rowKey r) :
    ∀ (l : List WeatherRecordRow) (b : WeatherRecordRow),
      b ∈ replaceFirst p f l → ∃ a ∈ l, rowKey b = rowKey a := by
  intro l
  induction l with
  | nil => intro b hb; cases hb
  | cons hd tl ih =>
    intro b hb
    simp only [replaceFirst] at hb
    split at hb
    · rcases List.mem_cons.mp hb with h1 | h1
      · exact ⟨hd, List.mem_cons_self hd tl, by rw [h1, hf]⟩
      · exact ⟨b, List.mem_cons_of_mem hd h1, rfl⟩
    · rcases List.mem_cons.mp hb with h1 | h1
      · exact ⟨hd, List.mem_cons_self hd tl, by rw [h1]⟩
      · rcases ih b h1 with ⟨a, ha, hk⟩
        exact ⟨a, List.mem_cons_of_mem hd ha, hk⟩

theorem uniqueKeys_replaceFirst (p : WeatherRecordRow → Bool)
    (f : WeatherRecordRow → WeatherRecordRow)
    (hf : ∀ r, rowKey (f r) = rowKey r) :
    ∀ (l : List WeatherRecordRow), uniqueKeys l → uniqueKeys (replaceFirst p f l) := by
  intro l
  induction l with
  | nil => intro h; exact h
  | cons hd tl ih =>
    intro h
    rcases List.pairwise_cons.mp h with ⟨hhd, htl⟩
    simp only [replaceFirst]
    split
    · refine List.pairwise_cons.mpr ⟨?_, htl⟩
      intro b hb
      rw [hf]
      exact hhd b hb
    · refine List.pairwise_cons.mpr ⟨?_, ih htl⟩
      intro b hb
      rcases mem_replaceFirst_key p f hf tl b hb with ⟨a, ha, hk⟩
      rw [hk]
      exact hhd a ha

theorem uniqueKeys_append_new (db : List WeatherRecordRow) (x : WeatherRecordRow)
    (hdb : uniqueKeys db) (hx : ∀ r ∈ db, rowKey r ≠ rowKey x) :
    uniqueKeys (db ++ [x]) := by
  rw [uniqueKeys, List.pairwise_append]
  exact ⟨hdb, List.pairwise_singleton _ x, fun a ha b hb => by
    rcases List.mem_singleton.mp hb with h1
    subst h1
    exact hx a ha⟩

theorem saveToDbCore_ok_uniqueKeys (db : List WeatherRecordRow) (weather_type : String)
    (target_date : Int) (data : String) (station : Option String) (lat lon : Option ℚ)
    (now : Int) (respMs : Option Int) (backendFails : Bool) (db2 : List WeatherRecordRow)
    (hc : saveToDbCore db weather_type target_date data station lat lon now respMs backendFails
      = .ok db2)
    (h : uniqueKeys db) : uniqueKeys db2 := by
  unfold saveToDbCore at hc
  split at hc
  · simp at hc
  · split at hc
    · split at hc
      · injection hc with h2
        subst h2
        exact uniqueKeys_replaceFirst _ (applySaveDefaults data now respMs)
          (fun r => rowKey_applySaveDefaults data now respMs r) db h
      · next hfind =>
        injection hc with h2
        subst h2
        refine uniqueKeys_append_new db _ h ?_
        intro r hr
        rw [rowKey_newSaveRow]
        intro hk
        have := List.find?_eq_none.mp hfind r hr
        exact this ((saveKeyMatch_iff _ _ _ _ _ r).mpr hk)
    · next la lo hnn =>
      split at hc
      · next hfilter =>
        injection hc with h2
        subst h2
        refine uniqueKeys_append_new db _ h ?_
        intro r hr
        rw [rowKey_newSaveRow]
        intro hk
        have hnone := List.filter_eq_nil_iff.mp hfilter r hr
        exact hnone ((saveKeyMatch_iff _ _ _ _ _ r).mpr hk)
      · injection hc with h2
        subst h2
        exact uniqueKeys_replaceFirst _ (applySaveDefaults data now respMs)
          (fun r => rowKey_applySaveDefaults data now respMs r) db h
      · simp at hc

theorem saveToDb_uniqueKeys (db : List WeatherRecordRow) (weather_type : String)
    (target_date : Int) (data : String) (station : Option String) (lat lon : Option ℚ)
    (now : Int) (respMs : Option Int) (backendFails : Bool)
    (h : uniqueKeys db) :
    uniqueKeys (saveToDb db weather_type target_date data station lat lon now respMs backendFails) := by
  unfold saveToDb
  split
  · next db2 hc => exact saveToDbCore_ok_uniqueKeys db _ _ _ _ _ _ _ _ _ db2 hc h
  · exact h

theorem mem_replaceFirst_of_not_matched (p : WeatherRecordRow → Bool)
    (f : WeatherRecordRow → WeatherRecordRow) (r : WeatherRecordRow) :
    ∀ (l : List WeatherRecordRow), r ∈ l → p r = false → r ∈ replaceFirst p f l := by
  intro l
  induction l with
  | nil => intro hr _; cases hr
  | cons hd tl ih =>
    intro hr hp
    simp only [replaceFirst]
    rcases List.mem_cons.mp hr with h1 | h1
    · subst h1
      rw [if_neg (by simp [hp])]
      exact List.mem_cons_self r _
    · split
      · exact List.mem_cons_of_mem _ h1
      · exact List.mem_cons_of_mem hd (ih h1 hp)

theorem mem_saveToDb_other_key (db : List WeatherRecordRow) (weather_type : String)
    (target_date : Int) (data : String) (station : Option String) (lat lon : Option ℚ)
    (now : Int) (respMs : Option Int) (backendFails : Bool) (r : WeatherRecordRow)
    (hr : r ∈ db)
    (hk : rowKey r ≠ (weather_type, target_date, station.getD (""), lat, lon)) :
    r ∈ saveToDb db weather_type target_date data station lat lon now respMs backendFails := by
  have hp : saveKeyMatch weather_type target_date (station.getD ("")) lat lon r = false := by
    rcases hb : saveKeyMatch weather_type target_date (station.getD ("")) lat lon r with _ | _
    · rfl
    · exact absurd ((saveKeyMatch_iff _ _ _ _ _ r).mp hb) hk
  have hcore : ∀ db2, saveToDbCore db weather_type target_date data station lat lon now
      respMs backendFails = .ok db2 → r ∈ db2 := by
    intro db2 hc
    unfold saveToDbCore at hc
    split at hc
    · simp at hc
    · split at hc
      · split at hc
        · injection hc with h2
          subst h2
          exact mem_replaceFirst_of_not_matched _ _ r db hr hp
        · injection hc with h2
          subst h2
          exact List.mem_append_left _ hr
      · split at hc
        · injection hc with h2
          subst h2
          exact List.mem_append_left _ hr
        · injection hc with h2
          subst h2
          exact mem_replaceFirst_of_not_matched _ _ r db hr hp
        · simp at hc
  unfold saveToDb
  split
  · next db2 hc => exact hcore db2 hc
  · exact hr

/-- Argument record of one _save_to_db call, for reasoning about arbitrary
sequences of saves. -/
structure SaveArgs where
  weather_type : String
  target_date : Int
  data : String
  station : Option String
  latitude : Option ℚ
  longitude : Option ℚ
  now : Int
  respMs : Option Int
  backendFails : Bool

/-- Fold a sequence of _save_to_db calls over a database state. -/
def applySaves (db : List WeatherRecordRow) (saves : List SaveArgs) : List WeatherRecordRow :=
  saves.foldl (fun acc a =>
    saveToDb acc a.weather_type a.target_date a.data a.station a.latitude a.longitude
      a.now a.respMs a.backendFails) db

theorem applySaves_uniqueKeys (saves : List SaveArgs) :
    ∀ (db : List WeatherRecordRow), uniqueKeys db → uniqueKeys (applySaves db saves) := by
  induction saves with
  | nil => intro db h; exact h
  | cons a rest ih =>
    intro db h
    exact ih _ (saveToDb_uniqueKeys db a.weather_type a.target_date a.data a.station
      a.latitude a.longitude a.now a.respMs a.backendFails h)

/-- A fetched record as handed to the caller: payload plus the from_cache
flag that the deserializers force to true and the API parsers leave false. -/
structure FetchedView (α : Type) where
  data : α
  from_cache : Bool
deriving DecidableEq, Repr

/-- Shared shape of the fetch orchestrations _get_metar, _get_taf,
_get_nws_forecast, _get_openmeteo_forecast, get_hourly_forecast and
_get_historical_weather: TTL-bounded cache read; on miss, live fetch; on
success persist (persistence failures swallowed) and return the fresh data;
on a WeatherServiceError (RateLimitError included), unbounded stale lookup,
returning the stale entry as cached data and re-raising only when it also
misses.  `fetchResult` is the outcome the live fetch would produce. -/
def fetchOrchestrate {α : Type} (db : List WeatherRecordRow) (now : Int)
    (fetchResult : Except WSError (Option α)) (persistFails : Bool)
    (weather_type : String) (target_date : Int)
    (station : Option String) (lat lon : Option ℚ) (ttl : Int) (respMs : Option Int)
    (serialize : α → String) (deserialize : String → α) :
    Except WSError (Option (FetchedView α)) × List WeatherRecordRow :=
  match getFromDb db weather_type target_date station lat lon (some ttl) now with
  | some r => (.ok (some ⟨deserialize r.data, true⟩), db)
  | none =>
    match fetchResult with
    | .ok (some d) =>
      (.ok (some ⟨d, false⟩),
        saveToDb db weather_type target_date (serialize d) station lat lon now respMs persistFails)
    | .ok none => (.ok none, db)
    | .error e =>
      match getFromDb db weather_type target_date station lat lon none now with
      | some r => (.ok (some ⟨deserialize r.data, true⟩), db)
      | none => (.error e, db)

/-- WeatherService._get_metar: weather_type 'metar', station key, 30 min TTL. -/
def getMetarFlow {α : Type} (db : List WeatherRecordRow) (now : Int)
    (fetchResult : Except WSError (Option α)) (persistFails : Bool)
    (local_today : Int) (station : String) (respMs : Option Int)
    (serialize : α → String) (deserialize : String → α) :
    Except WSError (Option (FetchedView α)) × List WeatherRecordRow :=
  fetchOrchestrate db now fetchResult persistFails ("metar") local_today
    (some station) none none 1800 respMs serialize deserialize

/-- WeatherService._get_taf: weather_type 'taf', station key, 1 h TTL. -/
def getTafFlow {α : Type} (db : List WeatherRecordRow) (now : Int)
    (fetchResult : Except WSError (Option α)) (persistFails : Bool)
    (target_date : Int) (station : String) (respMs : Option Int)
    (serialize : α → String) (deserialize : String → α) :
    Except WSError (Option (FetchedView α)) × List WeatherRecordRow :=
  fetchOrchestrate db now fetchResult persistFails ("taf") target_date
    (some station) none none 3600 respMs serialize deserialize

/-- WeatherService._get_nws_forecast: weather_type 'nws', coordinate key,
2 h TTL. -/
def getNwsFlow {α : Type} (db : List WeatherRecordRow) (now : Int)
    (fetchResult : Except WSError (Option α)) (persistFails : Bool)
    (target_date : Int) (lat lon : ℚ) (respMs : Option Int)
    (serialize : α → String) (deserialize : String → α) :
    Except WSError (Option (FetchedView α)) × List WeatherRecordRow :=
  fetchOrchestrate db now fetchResult persistFails ("nws") target_date
    none (some lat) (some lon) 7200 respMs serialize deserialize

/-- WeatherService._get_openmeteo_forecast: weather_type 'openmeteo',
coordinate key, 4 h TTL. -/
def getOpenMeteoFlow {α : Type} (db : List WeatherRecordRow) (now : Int)
    (fetchResult : Except WSError (Option α)) (persistFails : Bool)
    (target_date : Int) (lat lon : ℚ) (respMs : Option Int)
    (serialize : α → String) (deserialize : String → α) :
    Except WSError (Option (FetchedView α)) × List WeatherRecordRow :=
  fetchOrchestrate db now fetchResult persistFails ("openmeteo") target_date
    none (some lat) (some lon) 14400 respMs serialize deserialize

/-- WeatherService._get_historical_weather: weather_type 'historical',
coordinate key, 24 h TTL. -/
def getHistoricalFlow {α : Type} (db : List WeatherRecordRow) (now : Int)
    (fetchResult : Except WSError (Option α)) (persistFails : Bool)
    (target_date : Int) (lat lon : ℚ) (respMs : Option Int)
    (serialize : α → String) (deserialize : String → α) :
    Except WSError (Option (FetchedView α)) × List WeatherRecordRow :=
  fetchOrchestrate db now fetchResult persistFails ("historical") target_date
    none (some lat) (some lon) 86400 respMs serialize deserialize

/-- The candidate rows for a key, before any age filtering: same
weather_type and target_date, matching location. -/
def keyCandidates (db : List WeatherRecordRow) (weather_type : String) (target_date : Int)
    (station : Option String) (lat lon : Option ℚ) : List WeatherRecordRow :=
  locationFilter station lat lon (db.filter (fun r =>
    r.weather_type == weather_type && r.target_date == target_date))

theorem getFromDb_unbounded (db : List WeatherRecordRow) (weather_type : String)
    (target_date : Int) (station : Option String) (lat lon : Option ℚ) (now : Int) :
    getFromDb db weather_type target_date station lat lon none now
      = mostRecent (keyCandidates db weather_type target_date station lat lon) := rfl

/-- C2: at every fetch-orchestration path (the shared shape of _get_metar,
_get_taf, _get_nws_forecast, _get_openmeteo_forecast and
_get_historical_weather), when the TTL-bounded cache read misses and the
live fetch raises a WeatherServiceError, the most recent persisted entry
for the same key is returned regardless of its age with its from-cache
flag set, and the error propagates to the caller only when that unbounded
stale lookup also finds nothing. -/
theorem stale_fallback_on_fetch_error {α : Type} (db : List WeatherRecordRow) (now : Int)
    (persistFails : Bool) (weather_type : String) (target_date : Int)
    (station : Option String) (lat lon : Option ℚ) (ttl : Int) (respMs : Option Int)
    (serialize : α → String) (deserialize : String → α) (e : WSError)
    (hfresh : getFromDb db weather_type target_date station lat lon (some ttl) now = none) :
    (∀ r, getFromDb db weather_type target_date station lat lon none now = some r →
        (fetchOrchestrate db now (.error e) persistFails weather_type target_date station
            lat lon ttl respMs serialize deserialize).1
          = .ok (some ⟨deserialize r.data, true⟩)
        ∧ r ∈ keyCandidates db weather_type target_date station lat lon
        ∧ ∀ y ∈ keyCandidates db weather_type target_date station lat lon,
            y.fetched_at ≤ r.fetched_at)
    ∧ (getFromDb db weather_type target_date station lat lon none now = none →
        (fetchOrchestrate db now (.error e) persistFails weather_type target_date station
            lat lon ttl respMs serialize deserialize).1 = .error e) := by
  constructor
  · intro r hr
    have hmem := mostRecent_mem (keyCandidates db weather_type target_date station lat lon) r
      ((getFromDb_unbounded db weather_type target_date station lat lon now) ▸ hr)
    have hmax := mostRecent_max (keyCandidates db weather_type target_date station lat lon) r
      ((getFromDb_unbounded db weather_type target_date station lat lon now) ▸ hr)
    refine ⟨?_, hmem, hmax⟩
    unfold fetchOrchestrate
    rw [hfresh, hr]
  · intro hnone
    unfold fetchOrchestrate
    rw [hfresh, hnone]

/-- A persisted METAR row aged ten hours, for the C2 witness (TTL 1800 s,
now = 36000 s after the fetch). -/
def staleDbRow : WeatherRecordRow :=
  ⟨("metar"), 200, none, none, ("KACV"), ("stale-metar-json"), 0, none⟩

/-- Witness for C2: with only a ten-hour-old persisted entry, a failing
live fetch returns the stale entry flagged from-cache instead of raising. -/
theorem stale_fallback_on_fetch_error_witness :
    (getFromDb [staleDbRow] ("metar") 200 (some ("KACV")) none none (some 1800) 36000 = none)
    ∧ (getFromDb [staleDbRow] ("metar") 200 (some ("KACV")) none none none 36000 = some staleDbRow)
    ∧ (fetchOrchestrate [staleDbRow] 36000
          (.error (.weatherServiceError ("API request timed out"))) false ("metar") 200
          (some ("KACV")) none none 1800 none id id).1
        = .ok (some ⟨("stale-metar-json"), true⟩) := by
  refine ⟨by decide, by decide, ?_⟩
  exact ((stale_fallback_on_fetch_error [staleDbRow] 36000 false ("metar") 200
    (some ("KACV")) none none 1800 none id id
    (.weatherServiceError ("API request timed out")) (by decide)).1 staleDbRow (by decide)).1

/-- C9: _save_to_db is an upsert on the key tuple (weather_type,
target_date, station, latitude, longitude): it preserves the
at-most-one-current-row-per-key invariant, any sequence of saves starting
from an empty store satisfies it, a save keyed with neither station nor
coordinates never touches rows keyed with either, persistence failure is
swallowed leaving the store unchanged, and an in-hand fetch result is
still returned to the caller when persisting it fails. -/
theorem save_to_db_upsert_invariant :
    (∀ (db : List WeatherRecordRow) (wt : String) (td : Int) (data : String)
        (st : Option String) (lat lon : Option ℚ) (now : Int) (respMs : Option Int),
        saveToDb db wt td data st lat lon now respMs true = db)
    ∧ (∀ (db : List WeatherRecordRow) (wt : String) (td : Int) (data : String)
        (st : Option String) (lat lon : Option ℚ) (now : Int) (respMs : Option Int)
        (bf : Bool), uniqueKeys db →
        uniqueKeys (saveToDb db wt td data st lat lon now respMs bf))
    ∧ (∀ saves : List SaveArgs, uniqueKeys (applySaves [] saves))
    ∧ (∀ (db : List WeatherRecordRow) (wt : String) (td : Int) (data : String)
        (now : Int) (respMs : Option Int) (bf : Bool) (r : WeatherRecordRow), r ∈ db →
        (r.station ≠ ("") ∨ r.latitude ≠ none ∨ r.longitude ≠ none) →
        r ∈ saveToDb db wt td data none none none now respMs bf)
    ∧ (∀ {α : Type} (db : List WeatherRecordRow) (now : Int) (d : α) (wt : String)
        (td : Int) (st : Option String) (lat lon : Option ℚ) (ttl : Int)
        (respMs : Option Int) (serialize : α → String) (deserialize : String → α),
        getFromDb db wt td st lat lon (some ttl) now = none →
        (fetchOrchestrate db now (.ok (some d)) true wt td st lat lon ttl respMs
            serialize deserialize).1
          = .ok (some ⟨d, false⟩)) := by
  refine ⟨fun db wt td data st lat lon now respMs => rfl,
    fun db wt td data st lat lon now respMs bf h =>
      saveToDb_uniqueKeys db wt td data st lat lon now respMs bf h,
    fun saves => applySaves_uniqueKeys saves [] List.Pairwise.nil,
    ?_, ?_⟩
  · intro db wt td data now respMs bf r hr hdiff
    refine mem_saveToDb_other_key db wt td data none none none now respMs bf r hr ?_
    intro hk
    rw [rowKey] at hk
    rcases hdiff with h1 | h1 | h1 <;>
      simp only [Prod.mk.injEq, Option.getD_none] at hk <;>
      first
        | exact h1 hk.2.2.1
        | exact h1 hk.2.2.2.1
        | exact h1 hk.2.2.2.2
  · intro α db now d wt td st lat lon ttl respMs serialize deserialize hfresh
    unfold fetchOrchestrate
    rw [hfresh]

/-- Witness for C9: a concrete save over a one-row store preserves the
invariant, a station-less save leaves the station-keyed row in place, and
a successfully fetched value is returned even when persisting it fails. -/
theorem save_to_db_upsert_invariant_witness :
    (uniqueKeys [staleDbRow]
      ∧ uniqueKeys (saveToDb [staleDbRow] ("metar") 200 ("new-json") (some ("KACV"))
          none none 500 none false))
    ∧ (staleDbRow ∈ [staleDbRow]
      ∧ (staleDbRow.station ≠ ("") ∨ staleDbRow.latitude ≠ none ∨ staleDbRow.longitude ≠ none)
      ∧ staleDbRow ∈ saveToDb [staleDbRow] ("nws") 7 ("x") none none none 5 none false)
    ∧ (getFromDb [] ("metar") 200 (some ("KACV")) none none (some 1800) 0 = none
      ∧ (fetchOrchestrate ([] : List WeatherRecordRow) 0
            (.ok (some ("fresh-json"))) true ("metar") 200 (some ("KACV"))
            none none 1800 none id id).1
          = .ok (some ⟨("fresh-json"), false⟩)) := by
  refine ⟨⟨by simp [uniqueKeys], ?_⟩, ⟨by decide, by decide, ?_⟩, by decide, ?_⟩
  · exact save_to_db_upsert_invariant.2.1 [staleDbRow] ("metar") 200 ("new-json")
      (some ("KACV")) none none 500 none false (by simp [uniqueKeys])
  · exact save_to_db_upsert_invariant.2.2.2.1 [staleDbRow] ("nws") 7 ("x") 5 none false
      staleDbRow (by decide) (by decide)
  · exact save_to_db_upsert_invariant.2.2.2.2 [] 0 ("fresh-json") ("metar") 200
      (some ("KACV")) none none 1800 none id id (by decide)

/-- In-memory state of WeatherPoller: per-family last_poll timestamps (the
dict with keys 'metar', 'taf', 'nws', 'openmeteo') and the process-wide
_rate_limited_until timestamp (initially 0). -/
structure PollerState where
  last_poll_metar : Option Int
  last_poll_taf : Option Int
  last_poll_nws : Option Int
  last_poll_openmeteo : Option Int
  rate_limited_until : Int
deriving DecidableEq, Repr

/-- WeatherPoller._is_rate_limited: `time.time() < self._rate_limited_until`. -/
def isRateLimited (st : PollerState) (now : Int) : Bool :=
  decide (now < st.rate_limited_until)

/-- RATE_LIMIT_BACKOFF from weather_poller.py: 600 seconds (10 minutes). -/
def RATE_LIMIT_BACKOFF : Int := 600

/-- WeatherPoller._set_rate_limited: back off for RATE_LIMIT_BACKOFF
seconds from now. -/
def setRateLimited (st : PollerState) (now : Int) : PollerState :=
  ⟨st.last_poll_metar, st.last_poll_taf, st.last_poll_nws, st.last_poll_openmeteo,
   now + RATE_LIMIT_BACKOFF⟩

/-- Due test of _poll_if_due: never polled yet, or the interval has
elapsed since the recorded last poll. -/
def pollIsDue (last : Option Int) (now interval : Int) : Bool :=
  match last with
  | none => true
  | some t => decide (now - t ≥ interval)

/-- last_poll dict read for the four family names used by the run loop. -/
def lastPollOf (st : PollerState) (source : String) : Option Int :=
  if source = "metar" then st.last_poll_metar
  else if source = "taf" then st.last_poll_taf
  else if source = "nws" then st.last_poll_nws
  else if source = "openmeteo" then st.last_poll_openmeteo
  else none

/-- last_poll dict write. -/
def setLastPoll (st : PollerState) (source : String) (t : Int) : PollerState :=
  if source = "metar" then
    ⟨some t, st.last_poll_taf, st.last_poll_nws, st.last_poll_openmeteo, st.rate_limited_until⟩
  else if source = "taf" then
    ⟨st.last_poll_metar, some t, st.last_poll_nws, st.last_poll_openmeteo, st.rate_limited_until⟩
  else if source = "nws" then
    ⟨st.last_poll_metar, st.last_poll_taf, some t, st.last_poll_openmeteo, st.rate_limited_until⟩
  else if source = "openmeteo" then
    ⟨st.last_poll_metar, st.last_poll_taf, st.last_poll_nws, some t, st.rate_limited_until⟩
  else st

/-- Sources polled by one iteration of the WeatherPoller.run steady-state
loop: nothing at all when the rate-limit backoff is active, otherwise every
family whose own interval has elapsed, in the fixed order metar (1800 s),
taf (3600 s), nws (7200 s), openmeteo (14400 s). -/
def tickPolledSources (st : PollerState) (now : Int) : List String :=
  if isRateLimited st now then []
  else
    (if pollIsDue st.last_poll_metar now 1800 then [("metar")] else [])
      ++ (if pollIsDue st.last_poll_taf now 3600 then [("taf")] else [])
      ++ (if pollIsDue st.last_poll_nws now 7200 then [("nws")] else [])
      ++ (if pollIsDue st.last_poll_openmeteo now 14400 then [("openmeteo")] else [])

/-- Result of one _poll_source call as seen by _poll_if_due: the poll
succeeded, failed with a non-rate-limit error (swallowed and logged), or
hit a rate limit (upon which _poll_openmeteo calls _set_rate_limited). -/
inductive PollAttemptOutcome
  | success
  | failure
  | rateLimitHit
deriving DecidableEq, Repr

/-- State effect of _poll_source: only a rate-limit hit mutates state (via
_set_rate_limited); success and swallowed failure leave it unchanged. -/
def pollSourceEffect (st : PollerState) (now : Int) (outcome : PollAttemptOutcome) :
    PollerState :=
  match outcome with
  | .rateLimitHit => setRateLimited st now
  | .success => st
  | .failure => st

/-- WeatherPoller._poll_if_due: poll when the interval has elapsed since
the recorded last poll, then record `now` as the last poll unless the
process is rate limited after the attempt — the recording does not depend
on whether the poll succeeded. -/
def pollIfDue (st : PollerState) (source : String) (interval : Int) (now : Int)
    (outcome : PollAttemptOutcome) : PollerState :=
  if pollIsDue (lastPollOf st source) now interval then
    let st2 := pollSourceEffect st now outcome
    if isRateLimited st2 now then st2 else setLastPoll st2 source now
  else st

/-- C3 counterexample state: all four families polled long ago (time 0),
backoff active until 1000600. -/
def c3CexState : PollerState := ⟨some 0, some 0, some 0, some 0, 1000600⟩

/-- C3 counterexample: at time 1000000 the backoff is active and the
unrestricted metar family is due, yet the loop iteration polls nothing at
all — the backoff suspends the unrestricted families too, contradicting
the claim that they continue to be polled unaffected. -/
theorem poller_backoff_suspends_all_cex :
    isRateLimited c3CexState 1000000 = true
    ∧ pollIsDue c3CexState.last_poll_metar 1000000 1800 = true
    ∧ tickPolledSources c3CexState 1000000 = []
    ∧ ("metar") ∉ tickPolledSources c3CexState 1000000 := by
  refine ⟨rfl, rfl, rfl, ?_⟩
  intro h
  simp [tickPolledSources, isRateLimited, c3CexState] at h

/-- C3 (amended): while the process-wide backoff (set to a fixed 600 s on
any rate-limit hit) is active, the run loop polls nothing at all — the
shared-quota family and the unrestricted families alike; only when the
backoff is inactive is each family polled exactly when its own interval
has elapsed. -/
theorem poller_backoff_behavior (st : PollerState) (now t : Int) :
    (isRateLimited st now = true → tickPolledSources st now = [])
    ∧ (isRateLimited st now = true → ("openmeteo") ∉ tickPolledSources st now)
    ∧ (isRateLimited st now = false →
        (("metar") ∈ tickPolledSources st now ↔ pollIsDue st.last_poll_metar now 1800 = true)
        ∧ (("taf") ∈ tickPolledSources st now ↔ pollIsDue st.last_poll_taf now 3600 = true)
        ∧ (("nws") ∈ tickPolledSources st now ↔ pollIsDue st.last_poll_nws now 7200 = true)
        ∧ (("openmeteo") ∈ tickPolledSources st now
            ↔ pollIsDue st.last_poll_openmeteo now 14400 = true))
    ∧ isRateLimited (setRateLimited st now) now = true
    ∧ (now + RATE_LIMIT_BACKOFF ≤ t → isRateLimited (setRateLimited st now) t = false) := by
  refine ⟨?_, ?_, ?_, ?_, ?_⟩
  · intro h
    simp [tickPolledSources, h]
  · intro h
    simp [tickPolledSources, h]
  · intro h
    unfold tickPolledSources
    rw [h]
    simp only [Bool.false_eq_true, if_false]
    refine ⟨?_, ?_, ?_, ?_⟩ <;>
      (constructor
       · intro hmem
         by_contra hnd
         rw [Bool.not_eq_true] at hnd
         rw [hnd] at hmem
         simp at hmem <;> split_ifs at hmem <;> simp_all
       · intro hd
         rw [hd]
         simp <;> split_ifs <;> simp_all)
  · simp [isRateLimited, setRateLimited, RATE_LIMIT_BACKOFF]
  · intro ht
    simp only [isRateLimited, setRateLimited]
    simp only [decide_eq_false_iff_not, not_lt]
    exact ht

/-- C8 counterexample state: a fresh poller (no polls recorded, no backoff). -/
def c8CexState : PollerState := ⟨none, none, none, none, 0⟩

/-- C8 counterexample: a metar poll attempt that fails with a
non-rate-limit error still records last_poll = now, so the family is not
due again until a full TTL later — contradicting the claim that a failed
attempt does not push the next poll out. -/
theorem poller_failed_poll_reschedules_cex :
    (pollIfDue c8CexState ("metar") 1800 10000 .failure).last_poll_metar = some 10000
    ∧ (pollIfDue c8CexState ("metar") 1800 10000 .failure).last_poll_metar
        ≠ c8CexState.last_poll_metar
    ∧ pollIsDue (pollIfDue c8CexState ("metar") 1800 10000 .failure).last_poll_metar
        11799 1800 = false := by
  decide

/-- C8 (amended): _poll_if_due polls exactly when the family's interval
has elapsed since the recorded last poll; after a poll attempt the family's
last_poll is set to now whenever the attempt did not leave the process rate
limited — regardless of whether the attempt succeeded or failed — and only
a rate-limit hit (which arms the 600 s backoff) leaves last_poll
unchanged. -/
theorem poll_if_due_behavior (st : PollerState) (source : String) (interval now : Int)
    (outcome : PollAttemptOutcome) :
    (pollIsDue (lastPollOf st source) now interval = false →
      pollIfDue st source interval now outcome = st)
    ∧ (pollIsDue (lastPollOf st source) now interval = true →
        (outcome = .rateLimitHit →
          pollIfDue st source interval now outcome = setRateLimited st now)
        ∧ (outcome ≠ .rateLimitHit → isRateLimited st now = false →
          pollIfDue st source interval now outcome = setLastPoll st source now)) := by
  refine ⟨?_, ?_⟩
  · intro h
    simp [pollIfDue, h]
  · intro h
    refine ⟨?_, ?_⟩
    · intro ho
      subst ho
      have hrl : isRateLimited (setRateLimited st now) now = true := by
        simp [isRateLimited, setRateLimited, RATE_LIMIT_BACKOFF]
      simp [pollIfDue, h, pollSourceEffect, hrl]
    · intro ho hrl
      cases outcome with
      | success => simp [pollIfDue, h, pollSourceEffect, hrl]
      | failure => simp [pollIfDue, h, pollSourceEffect, hrl]
      | rateLimitHit => exact absurd rfl ho

/-- Witness for C8's amended theorem: a due metar family with a failing
(non-rate-limit) attempt and no backoff records last_poll = now. -/
theorem poll_if_due_behavior_witness :
    (pollIsDue (lastPollOf c8CexState ("metar")) 10000 1800 = true
      ∧ PollAttemptOutcome.failure ≠ PollAttemptOutcome.rateLimitHit
      ∧ isRateLimited c8CexState 10000 = false)
    ∧ pollIfDue c8CexState ("metar") 1800 10000 .failure
        = setLastPoll c8CexState ("metar") 10000 := by
  refine ⟨⟨by decide, by decide, by decide⟩, ?_⟩
  exact ((poll_if_due_behavior c8CexState ("metar") 1800 10000 .failure).2
    (by decide)).2 (by decide) (by decide)

/-- Witness for C3's amended theorem: with the backoff armed, a loop tick
at time 1000000 polls nothing; once it expires the due families poll again. -/
theorem poller_backoff_behavior_witness :
    (isRateLimited c3CexState 1000000 = true
      ∧ tickPolledSources c3CexState 1000000 = [])
    ∧ (isRateLimited c3CexState 2000000 = false
      ∧ (("metar") ∈ tickPolledSources c3CexState 2000000
          ↔ pollIsDue c3CexState.last_poll_metar 2000000 1800 = true))
    ∧ (1000000 + RATE_LIMIT_BACKOFF ≤ 2000000
      ∧ isRateLimited (setRateLimited c3CexState 1000000) 2000000 = false) := by
  refine ⟨⟨by decide, ?_⟩, ⟨by decide, ?_⟩, by decide, ?_⟩
  · exact (poller_backoff_behavior c3CexState 1000000 0).1 (by decide)
  · exact ((poller_backoff_behavior c3CexState 2000000 0).2.2.1 (by decide)).1
  · exact (poller_backoff_behavior c3CexState 1000000 2000000).2.2.2.2 (by decide)

/-- Witness for C7's amended theorem: the three exhaustion errors and the
proactive refusal at the default retry ceiling, evaluated concretely. -/
theorem retry_error_taxonomy_witness :
    ((requestLoop 3 1 30 (fun _ => AttemptOutcome.httpResponse 429 none) (fun _ => 0) 0).1
        = .error (.weatherServiceError ("API rate limit exceeded after retries")))
    ∧ (makeRequestWithRetry true false 3 1 30 (fun _ => AttemptOutcome.timeout) (fun _ => 0)
        = (.error (.rateLimitError ("Open-Meteo rate limit threshold reached")), [])) := by
  refine ⟨(retry_error_taxonomy 3 1 30 (fun _ => 0)).1, ?_⟩
  exact (retry_error_taxonomy 3 1 30 (fun _ => 0)).2.2.2.1 (fun _ => AttemptOutcome.timeout)
